import Mathlib

/-!
Shallow embedding of the Normaex document structural-visual analysis and
repair pipeline (backend/services: ai_structural.py, document_vision.py,
executor.py, validator.py), together with theorems settling the frozen
claims about it.

Conventions of the embedding:
* Python floats are modelled as exact rationals (`ℚ`); `round(x, k)` is
  modelled by rounding to the nearest multiple of `10⁻ᵏ`.
* Python `None` is `Option.none`; optional dict keys are `Option` fields.
* Functions that can raise return `Except String _`; the error string
  models the exception message.
* Python dicts used as ordered histograms are association lists that
  preserve insertion order, so that `max(d, key=d.get)` (first maximum in
  insertion order) is modelled faithfully.
-/

namespace Normaex

/-! ### String primitives

The Python string operations used by the pipeline are embedded
structurally over the character list of a `String`, so that concrete
instances compute inside the kernel. -/

/-- Embeds `s.split("_")` (single-character separator, no merging of empties). -/
def splitOnChar (sep : Char) : List Char → List (List Char)
  | [] => [[]]
  | c :: rest =>
    let r := splitOnChar sep rest
    if c = sep then [] :: r
    else
      match r with
      | [] => [[c]]
      | h :: t => (c :: h) :: t

/-- Value of a decimal digit string. -/
def digitsToNat (l : List Char) : ℕ :=
  l.foldl (fun acc c => acc * 10 + (c.toNat - 48)) 0

/-- Python `int(s)`: optional sign then decimal digits; `none` models the
`ValueError` on anything else. -/
def parseIntChars : List Char → Option ℤ
  | [] => none
  | '-' :: rest =>
    if rest ≠ [] ∧ rest.all Char.isDigit then some (-(digitsToNat rest : ℤ)) else none
  | l => if l.all Char.isDigit then some ((digitsToNat l : ℤ)) else none

/-- Python `s.startswith(pre)`. -/
def strStartsWith (s pre : String) : Bool := pre.data.isPrefixOf s.data

/-- Python `s.lower().startswith(pre)` for an already-lowercase `pre`. -/
def lowerStartsWith (s pre : String) : Bool :=
  pre.data.isPrefixOf (s.data.map Char.toLower)

/-- Rounding to 1 decimal place, modelling Python `round(x, 1)`. -/
def round1 (q : ℚ) : ℚ := (round (q * 10) : ℤ) / 10

/-- Rounding to 2 decimal places, modelling Python `round(x, 2)`. -/
def round2 (q : ℚ) : ℚ := (round (q * 100) : ℤ) / 100

/-- Minimum of a list, modelling Python `min(xs)` (0 on `[]`, never used there). -/
def listMin : List ℚ → ℚ
  | [] => 0
  | x :: xs => xs.foldl min x

/-- Maximum of a list, modelling Python `max(xs)` (0 on `[]`, never used there). -/
def listMax : List ℚ → ℚ
  | [] => 0
  | x :: xs => xs.foldl max x

/-- Ordered histogram bump: `d[k] = d.get(k, 0) + 1` on an insertion-ordered
association list, as Python dicts preserve insertion order. -/
def bump {α : Type} [DecidableEq α] (k : α) : List (α × ℕ) → List (α × ℕ)
  | [] => [(k, 1)]
  | (k', n) :: rest => if k' = k then (k', n + 1) :: rest else (k', n) :: bump k rest

/-! ## Structural model (document_vision.extract_complete_structure output)

Only the parts consumed by the analysed functions are embedded: sections
with margins, paragraphs with style name / alignment / spacing / indent /
runs, and the total word statistic. -/

/-- Embeds `sections[i]["margins"]`: each axis in cm, `None` when missing. -/
structure SMargins where
  top : Option ℚ
  bottom : Option ℚ
  left : Option ℚ
  right : Option ℚ
deriving Repr, DecidableEq

/-- One entry of `structure["sections"]`. -/
structure SSection where
  margins : SMargins
deriving Repr, DecidableEq

/-- Embeds `run["font"]` of an extracted paragraph run. -/
structure SFont where
  name : Option String
  size : Option ℚ
deriving Repr, DecidableEq

/-- One entry of `paragraph["runs"]`. -/
structure SRun where
  text : String
  font : SFont
deriving Repr, DecidableEq

/-- One entry of `structure["paragraphs"]`, keeping the fields read by
`detect_style_inconsistencies`: `style.name`, `style.alignment` (stored as a
string by the extractor), `style.spacing.line_spacing`,
`style.indent.first_line`, and the runs. -/
structure SPara where
  styleName : String
  text : String
  alignment : String
  lineSpacing : Option ℚ
  firstLineIndent : Option ℚ
  runs : List SRun
deriving Repr, DecidableEq

/-- The structural model (`complete_vision["structure"]`). -/
structure DocStructure where
  sections : List SSection
  paragraphs : List SPara
  totalWords : ℕ
deriving Repr, DecidableEq

/-! ## Issue detector (ai_structural.detect_style_inconsistencies) -/

/-- An entry of the inconsistency list produced by
`detect_style_inconsistencies`. -/
structure Issue where
  type : String
  severity : String
  recommendation : String
  affected_count : ℕ
deriving Repr, DecidableEq

/-- Body-paragraph filter used by both the detector and the executor:
the style name does not start with `heading` nor `título`
(case-insensitively). -/
def isBodyStyle (styleName : String) : Bool :=
  !(lowerStartsWith styleName "heading") && !(lowerStartsWith styleName "título")

/-- Embeds `body_paragraphs` of `detect_style_inconsistencies`. -/
def bodyParagraphs (paragraphs : List SPara) : List SPara :=
  paragraphs.filter (fun p => isBodyStyle p.styleName)

/-- Embeds `fonts_used`: histogram over body runs of the key
`f"{run['font']['name']}_{run['font']['size']}"`, counted only when
`run['font']['name']` is truthy (non-`None` and non-empty).  The key is
modelled as the `(name, size)` pair. -/
def fontsUsed (body : List SPara) : List ((String × Option ℚ) × ℕ) :=
  body.foldl
    (fun acc para =>
      para.runs.foldl
        (fun acc run =>
          match run.font.name with
          | some n => if n ≠ "" then bump (n, run.font.size) acc else acc
          | none => acc)
        acc)
    []

/-- Embeds `alignments`: histogram of `para['style']['alignment']` over body paragraphs. -/
def alignmentsUsed (body : List SPara) : List (String × ℕ) :=
  body.foldl (fun acc para => bump para.alignment acc) []

/-- Embeds `spacings`: histogram of truthy `line_spacing` values over body paragraphs
(`if spacing:` skips both `None` and `0`). -/
def spacingsUsed (body : List SPara) : List (ℚ × ℕ) :=
  body.foldl
    (fun acc para =>
      match para.lineSpacing with
      | some s => if s ≠ 0 then bump s acc else acc
      | none => acc)
    []

/-- Count of body paragraphs with `first_line` indent truthy and `> 0`. -/
def hasIndentCount (body : List SPara) : ℕ :=
  (body.filter (fun p =>
    match p.firstLineIndent with
    | some v => decide (v > 0)
    | none => false)).length

/-- Count of body paragraphs without a positive `first_line` indent. -/
def noIndentCount (body : List SPara) : ℕ :=
  (body.filter (fun p =>
    match p.firstLineIndent with
    | some v => decide (¬ v > 0)
    | none => true)).length

/-- Embeds `ai_structural.detect_style_inconsistencies`, rule-based inconsistency
detection over the structural paragraphs of a vision. -/
def detect_style_inconsistencies (paragraphs : List SPara) : List Issue :=
  let body := bodyParagraphs paragraphs
  if body.isEmpty then []
  else
    (if (fontsUsed body).length > 2 then
      [{ type := "inconsistent_fonts", severity := "high",
         recommendation := "Padronizar para Arial 12pt",
         affected_count := body.length }]
     else []) ++
    (if (alignmentsUsed body).length > 1 then
      [{ type := "inconsistent_alignment", severity := "medium",
         recommendation := "Justificar todo corpo de texto",
         affected_count := body.length }]
     else []) ++
    (if (spacingsUsed body).length > 1 then
      [{ type := "inconsistent_spacing", severity := "high",
         recommendation := "Padronizar para 1.5",
         affected_count := body.length }]
     else []) ++
    (if hasIndentCount body > 0 ∧ noIndentCount body > 0 then
      [{ type := "inconsistent_indent", severity := "medium",
         recommendation := "Adicionar recuo de 1.25cm em todos",
         affected_count := noIndentCount body }]
     else [])

/-! ## Action planner (ai_structural.generate_action_plan_from_issues) -/

/-- The loosely-typed `params` dict of an action: every key that any of the
five operations reads, each optional (`"k" in params` = `isSome`). -/
structure Params where
  top : Option ℚ := none
  bottom : Option ℚ := none
  left : Option ℚ := none
  right : Option ℚ := none
  name : Option String := none
  size : Option ℚ := none
  line_spacing : Option ℚ := none
  alignment : Option String := none
  first_line : Option ℚ := none
deriving Repr, DecidableEq

/-- One executable action of the plan. -/
structure Action where
  action : String
  target : String
  params : Params
  description : String
  priority : Option ℤ := none
deriving Repr, DecidableEq

/-- Embeds `needs_margin_fix` condition of the planner: any axis of
`sections[0]["margins"]` differs (exact `!=`, `None` counts as different)
from the ABNT targets 3/3/2/2 cm. -/
def needs_margin_fix (m : SMargins) : Bool :=
  m.top ≠ some 3 || m.left ≠ some 3 || m.bottom ≠ some 2 || m.right ≠ some 2

/-- The `fix_margin` action appended by the planner. -/
def marginAction (priority : ℤ) : Action :=
  { action := "fix_margin", target := "section_0",
    params := { top := some 3, left := some 3, bottom := some 2, right := some 2 },
    description := "Ajustar margens para padrão ABNT (3cm topo/esq, 2cm baixo/dir)",
    priority := some priority }

/-- The `fix_font` action appended by the planner. -/
def fontAction (priority : ℤ) : Action :=
  { action := "fix_font", target := "all_body",
    params := { name := some "Arial", size := some 12 },
    description := "Padronizar fonte para Arial 12pt em todo corpo de texto",
    priority := some priority }

/-- The `fix_spacing` action appended by the planner. -/
def spacingAction (priority : ℤ) : Action :=
  { action := "fix_spacing", target := "all_body",
    params := { line_spacing := some (3/2) },
    description := "Padronizar espaçamento entre linhas para 1.5",
    priority := some priority }

/-- The `fix_alignment` action appended by the planner. -/
def alignmentAction (priority : ℤ) : Action :=
  { action := "fix_alignment", target := "all_body",
    params := { alignment := some "justify" },
    description := "Justificar todo corpo de texto",
    priority := some priority }

/-- The `fix_indent` action appended by the planner. -/
def indentAction (priority : ℤ) : Action :=
  { action := "fix_indent", target := "all_body",
    params := { first_line := some (5/4) },
    description := "Adicionar recuo de 1.25cm na primeira linha de todos os parágrafos",
    priority := some priority }

/-- Embeds `ai_structural.generate_action_plan_from_issues`: builds the executable
plan from the detected issues; margins are checked directly on the
structure, the other four categories by `next(i for i in inconsistencies
if i["type"] == ...)`.  `abnt_issues` is accepted but never read. -/
def generate_action_plan_from_issues (abnt_issues : List Issue)
    (inconsistencies : List Issue) (s : DocStructure) : List Action :=
  let _ := abnt_issues
  let step1 : List Action × ℤ :=
    match s.sections with
    | [] => ([], 1)
    | sec :: _ =>
      if needs_margin_fix sec.margins then ([marginAction 1], 2) else ([], 1)
  let step2 : List Action × ℤ :=
    if (inconsistencies.find? (fun i => i.type = "inconsistent_fonts")).isSome then
      (step1.1 ++ [fontAction step1.2], step1.2 + 1)
    else step1
  let step3 : List Action × ℤ :=
    if (inconsistencies.find? (fun i => i.type = "inconsistent_spacing")).isSome then
      (step2.1 ++ [spacingAction step2.2], step2.2 + 1)
    else step2
  let step4 : List Action × ℤ :=
    if (inconsistencies.find? (fun i => i.type = "inconsistent_alignment")).isSome then
      (step3.1 ++ [alignmentAction step3.2], step3.2 + 1)
    else step3
  let step5 : List Action × ℤ :=
    if (inconsistencies.find? (fun i => i.type = "inconsistent_indent")).isSome then
      (step4.1 ++ [indentAction step4.2], step4.2 + 1)
    else step4
  step5.1

/-! ## Executor (executor.DocumentExecutor)

The executor works on the live `python-docx` document; its state is
embedded as `ExDoc`: sections with settable margins, paragraphs with
style name, text, alignment, line spacing, first-line indent and runs. -/

/-- Paragraph alignment enum (`WD_ALIGN_PARAGRAPH`). -/
inductive Align where
  | justify
  | left
  | center
  | right
deriving Repr, DecidableEq

/-- A `python-docx` run as mutated by the executor. -/
structure ExRun where
  text : String
  fontName : Option String
  fontSize : Option ℚ
deriving Repr, DecidableEq

/-- A `python-docx` paragraph as mutated by the executor. -/
structure ExPara where
  styleName : String
  text : String
  alignment : Option Align
  lineSpacing : Option ℚ
  firstLineIndent : Option ℚ
  runs : List ExRun
deriving Repr, DecidableEq

/-- A `python-docx` section as mutated by the executor (margins in cm). -/
structure ExSection where
  topMargin : Option ℚ
  bottomMargin : Option ℚ
  leftMargin : Option ℚ
  rightMargin : Option ℚ
deriving Repr, DecidableEq

/-- The live document state mutated by `DocumentExecutor`. -/
structure ExDoc where
  sections : List ExSection
  paragraphs : List ExPara
deriving Repr, DecidableEq

/-- In-place update of the element at position `i` (Python `xs[i].attr = v`). -/
def listModify {α : Type} (l : List α) (i : ℕ) (f : α → α) : List α :=
  match l, i with
  | [], _ => []
  | x :: xs, 0 => f x :: xs
  | x :: xs, n + 1 => x :: listModify xs n f

/-- Embeds `int(target.split("_")[1])`: `none` models the `ValueError` /
`IndexError` raised when the piece is missing or not an integer. -/
def targetIndex (target : String) : Option ℤ :=
  match (splitOnChar '_' target.data).get? 1 with
  | some piece => parseIntChars piece
  | none => none

/-- Python list indexing after the executor's `idx >= len` guard:
non-negative indices are exact, negative indices resolve to `len + idx`,
and `none` models the `IndexError` for `idx < -len`. -/
def pyIndex (len : ℕ) (i : ℤ) : Option ℕ :=
  if 0 ≤ i then (if i < (len : ℤ) then some i.toNat else none)
  else (if -i ≤ (len : ℤ) then some (len - (-i).toNat) else none)

/-- Body test used by the executor's `all_body` loops:
`not para.style.name.lower().startswith('heading'/'título')`. -/
def exIsBody (p : ExPara) : Bool := isBodyStyle p.styleName

/-- Truthiness of `para.text.strip()`. -/
def stripTruthy (s : String) : Bool := s.data.any (fun c => !c.isWhitespace)

/-- Embeds `DocumentExecutor.fix_margin`: applies exactly the margin axes present
in `params` to the targeted section(s). -/
def applyMarginParams (params : Params) (s : ExSection) : ExSection :=
  { topMargin := match params.top with | some v => some v | none => s.topMargin,
    bottomMargin := match params.bottom with | some v => some v | none => s.bottomMargin,
    leftMargin := match params.left with | some v => some v | none => s.leftMargin,
    rightMargin := match params.right with | some v => some v | none => s.rightMargin }

/-- Embeds `DocumentExecutor.fix_margin`. -/
def fix_margin (doc : ExDoc) (target : String) (params : Params) :
    Except String (ExDoc × String) :=
  if strStartsWith target "section_" then
    match targetIndex target with
    | none => .error "invalid literal for int() with base 10"
    | some idx =>
      if (doc.sections.length : ℤ) ≤ idx then
        .error s!"Seção {idx} não existe no documento"
      else
        match pyIndex doc.sections.length idx with
        | none => .error "list index out of range"
        | some i =>
          .ok ({ doc with sections := listModify doc.sections i (applyMarginParams params) },
               s!"Margens ajustadas na seção {idx}")
  else if target = "all_sections" then
    .ok ({ doc with sections := doc.sections.map (applyMarginParams params) },
         "Margens ajustadas em todas as seções")
  else
    .error s!"Target inválido para fix_margin: {target}"

/-- Run mutation of `fix_font`: `run.font.name = name; run.font.size = Pt(size)`. -/
def setRunFont (name : String) (size : ℚ) (r : ExRun) : ExRun :=
  { r with fontName := some name, fontSize := some size }

/-- Paragraph mutation of `fix_font` (all runs). -/
def setParaFont (name : String) (size : ℚ) (p : ExPara) : ExPara :=
  { p with runs := p.runs.map (setRunFont name size) }

/-- Embeds `DocumentExecutor.fix_font`; missing params default to Arial / 12. -/
def fix_font (doc : ExDoc) (target : String) (params : Params) :
    Except String (ExDoc × String) :=
  let font_name := params.name.getD "Arial"
  let font_size := params.size.getD 12
  if target = "all_body" then
    .ok ({ doc with paragraphs := doc.paragraphs.map (fun p =>
            if exIsBody p then setParaFont font_name font_size p else p) },
         s!"Fonte ajustada para {font_name} em parágrafos de corpo")
  else if strStartsWith target "paragraph_" then
    match targetIndex target with
    | none => .error "invalid literal for int() with base 10"
    | some idx =>
      if (doc.paragraphs.length : ℤ) ≤ idx then
        .error s!"Parágrafo {idx} não existe no documento"
      else
        match pyIndex doc.paragraphs.length idx with
        | none => .error "list index out of range"
        | some i =>
          .ok ({ doc with paragraphs :=
                  listModify doc.paragraphs i (setParaFont font_name font_size) },
               s!"Fonte ajustada no parágrafo {idx}")
  else if target = "all" then
    .ok ({ doc with paragraphs := doc.paragraphs.map (setParaFont font_name font_size) },
         "Fonte ajustada em todos os parágrafos (incluindo títulos)")
  else
    .error s!"Target inválido para fix_font: {target}"

/-- Paragraph mutation of `fix_spacing`. -/
def setParaSpacing (ls : ℚ) (p : ExPara) : ExPara := { p with lineSpacing := some ls }

/-- Embeds `DocumentExecutor.fix_spacing`; missing `line_spacing` defaults to 1.5. -/
def fix_spacing (doc : ExDoc) (target : String) (params : Params) :
    Except String (ExDoc × String) :=
  let line_spacing := params.line_spacing.getD (3/2)
  if target = "all_body" then
    .ok ({ doc with paragraphs := doc.paragraphs.map (fun p =>
            if exIsBody p then setParaSpacing line_spacing p else p) },
         "Espaçamento ajustado em parágrafos de corpo")
  else if strStartsWith target "paragraph_" then
    match targetIndex target with
    | none => .error "invalid literal for int() with base 10"
    | some idx =>
      if (doc.paragraphs.length : ℤ) ≤ idx then
        .error s!"Parágrafo {idx} não existe no documento"
      else
        match pyIndex doc.paragraphs.length idx with
        | none => .error "list index out of range"
        | some i =>
          .ok ({ doc with paragraphs := listModify doc.paragraphs i (setParaSpacing line_spacing) },
               s!"Espaçamento ajustado no parágrafo {idx}")
  else if target = "all" then
    .ok ({ doc with paragraphs := doc.paragraphs.map (setParaSpacing line_spacing) },
         "Espaçamento ajustado em todos os parágrafos (incluindo títulos)")
  else
    .error s!"Target inválido para fix_spacing: {target}"

/-- Embeds `alignment_map.get(alignment_str, WD_ALIGN_PARAGRAPH.JUSTIFY)`. -/
def alignmentOfString (s : String) : Align :=
  if s = "justify" then .justify
  else if s = "left" then .left
  else if s = "center" then .center
  else if s = "right" then .right
  else .justify

/-- Paragraph mutation of `fix_alignment`. -/
def setParaAlignment (a : Align) (p : ExPara) : ExPara := { p with alignment := some a }

/-- Embeds `DocumentExecutor.fix_alignment`; missing `alignment` defaults to justify. -/
def fix_alignment (doc : ExDoc) (target : String) (params : Params) :
    Except String (ExDoc × String) :=
  let alignment := alignmentOfString (params.alignment.getD "justify")
  if target = "all_body" then
    .ok ({ doc with paragraphs := doc.paragraphs.map (fun p =>
            if exIsBody p then setParaAlignment alignment p else p) },
         "Alinhamento ajustado em parágrafos de corpo")
  else if strStartsWith target "paragraph_" then
    match targetIndex target with
    | none => .error "invalid literal for int() with base 10"
    | some idx =>
      if (doc.paragraphs.length : ℤ) ≤ idx then
        .error s!"Parágrafo {idx} não existe no documento"
      else
        match pyIndex doc.paragraphs.length idx with
        | none => .error "list index out of range"
        | some i =>
          .ok ({ doc with paragraphs := listModify doc.paragraphs i (setParaAlignment alignment) },
               s!"Alinhamento ajustado no parágrafo {idx}")
  else if target = "all" then
    .ok ({ doc with paragraphs := doc.paragraphs.map (setParaAlignment alignment) },
         "Alinhamento ajustado em todos os parágrafos (incluindo títulos)")
  else
    .error s!"Target inválido para fix_alignment: {target}"

/-- Paragraph mutation of `fix_indent`. -/
def setParaIndent (fl : ℚ) (p : ExPara) : ExPara := { p with firstLineIndent := some fl }

/-- Embeds `DocumentExecutor.fix_indent`; missing `first_line` defaults to 1.25;
`all_body` additionally skips paragraphs with blank text, and `all` skips
blank paragraphs but keeps headings. -/
def fix_indent (doc : ExDoc) (target : String) (params : Params) :
    Except String (ExDoc × String) :=
  let first_line := params.first_line.getD (5/4)
  if target = "all_body" then
    .ok ({ doc with paragraphs := doc.paragraphs.map (fun p =>
            if exIsBody p && stripTruthy p.text then setParaIndent first_line p else p) },
         "Recuo ajustado em parágrafos de corpo")
  else if strStartsWith target "paragraph_" then
    match targetIndex target with
    | none => .error "invalid literal for int() with base 10"
    | some idx =>
      if (doc.paragraphs.length : ℤ) ≤ idx then
        .error s!"Parágrafo {idx} não existe no documento"
      else
        match pyIndex doc.paragraphs.length idx with
        | none => .error "list index out of range"
        | some i =>
          .ok ({ doc with paragraphs := listModify doc.paragraphs i (setParaIndent first_line) },
               s!"Recuo ajustado no parágrafo {idx}")
  else if target = "all" then
    .ok ({ doc with paragraphs := doc.paragraphs.map (fun p =>
            if stripTruthy p.text then setParaIndent first_line p else p) },
         "Recuo ajustado em todos os parágrafos não vazios")
  else
    .error s!"Target inválido para fix_indent: {target}"

/-- Embeds `DocumentExecutor.execute_single_action`: dispatch on `action["action"]`. -/
def execute_single_action (doc : ExDoc) (a : Action) :
    Except String (ExDoc × String) :=
  if a.action = "fix_margin" then fix_margin doc a.target a.params
  else if a.action = "fix_font" then fix_font doc a.target a.params
  else if a.action = "fix_spacing" then fix_spacing doc a.target a.params
  else if a.action = "fix_alignment" then fix_alignment doc a.target a.params
  else if a.action = "fix_indent" then fix_indent doc a.target a.params
  else
    let unknown := a.action
    .error s!"Ação desconhecida: {unknown}"

/-- The document after one action: the mutated document on success, the
unchanged document when the action raised (all raises in the five
operations happen before any mutation). -/
def applyActionDoc (doc : ExDoc) (a : Action) : ExDoc :=
  match execute_single_action doc a with
  | .ok (d, _) => d
  | .error _ => doc

/-- One entry of the result list of `execute_action_plan`. -/
structure ActionResult where
  action_index : ℕ
  action : Action
  status : String
  message : String
deriving Repr, DecidableEq

/-- Sort key of `execute_action_plan`: `x.get("priority", 999)`. -/
def sortKey (a : Action) : ℤ := a.priority.getD 999

/-- Stable insertion (after all existing entries with key `≤` the new key),
matching Python's stable `sorted`. -/
def insertByKey (a : Action) : List Action → List Action
  | [] => [a]
  | b :: bs => if sortKey a < sortKey b then a :: b :: bs else b :: insertByKey a bs

/-- Stable sort of the plan by priority ascending. -/
def sortByPriority : List Action → List Action
  | [] => []
  | a :: rest => insertByKey a (sortByPriority rest)

/-- The per-action loop body of `execute_action_plan`: try each action in
order, record success or the caught exception, and continue. -/
def runPlan (doc : ExDoc) (plan : List Action) (idx : ℕ) : ExDoc × List ActionResult :=
  match plan with
  | [] => (doc, [])
  | a :: rest =>
    match execute_single_action doc a with
    | .ok (d, _msg) =>
      let next := runPlan d rest (idx + 1)
      (next.1,
       { action_index := idx, action := a, status := "success",
         message := "✓ " ++ a.description } :: next.2)
    | .error e =>
      let next := runPlan doc rest (idx + 1)
      (next.1,
       { action_index := idx, action := a, status := "error",
         message := "✗ Erro: " ++ e } :: next.2)

/-- Embeds `DocumentExecutor.execute_action_plan`: sort by priority, then run every
action independently, never aborting on a failed action. -/
def execute_action_plan (doc : ExDoc) (plan : List Action) : ExDoc × List ActionResult :=
  runPlan doc (sortByPriority plan) 0

/-- Aggregate of `DocumentExecutor.get_summary`. -/
structure RunSummary where
  total_actions : ℕ
  successful_actions : ℕ
  failed_actions : ℕ
  success_rate : ℚ
deriving Repr, DecidableEq

/-- Embeds `DocumentExecutor.get_summary` over the recorded action log. -/
def get_summary (results : List ActionResult) : RunSummary :=
  let total := results.length
  let succ := (results.filter (fun r => r.status = "success")).length
  let failed := (results.filter (fun r => r.status = "error")).length
  { total_actions := total, successful_actions := succ, failed_actions := failed,
    success_rate := if total > 0 then (succ : ℚ) / (total : ℚ) * 100 else 0 }

/-! ## Visual model and merger (document_vision) -/

/-- One text span of `extract_visual_layout` (the extractor flattens
blocks/lines into a per-page span list `text_blocks`). -/
structure VSpan where
  text : String
  x0 : ℚ
  y0 : ℚ
  x1 : ℚ
  y1 : ℚ
  font : String
  size : ℚ
deriving Repr, DecidableEq

/-- One page of the visual layout. -/
structure VPage where
  width : ℚ
  height : ℚ
  text_blocks : List VSpan
deriving Repr, DecidableEq

/-- Embeds `extract_visual_layout` output. -/
structure VisualLayout where
  total_pages : ℕ
  pages : List VPage
deriving Repr, DecidableEq

/-- Return value of `calculate_visual_margins`: the empty dict `{}` when
there is no first page or no span on it, otherwise the measured margins
in cm (rounded to 2 decimals). -/
inductive VisualMargins where
  | emptyDict : VisualMargins
  | margins (left top right : ℚ) : VisualMargins
deriving Repr, DecidableEq

/-- Embeds `document_vision.calculate_visual_margins`: margins from the first
page's span coordinates, `left = min x0 / 72 * 2.54`,
`top = min y0 / 72 * 2.54`, `right = (pageWidth - max x1) / 72 * 2.54`. -/
def calculate_visual_margins (visual_data : VisualLayout) : VisualMargins :=
  match visual_data.pages with
  | [] => .emptyDict
  | first_page :: _ =>
    if first_page.text_blocks.isEmpty then .emptyDict
    else
      let left_positions := first_page.text_blocks.map (fun b => b.x0)
      let top_positions := first_page.text_blocks.map (fun b => b.y0)
      let right_positions := first_page.text_blocks.map (fun b => b.x1)
      let page_width := first_page.width
      .margins
        (round2 (listMin left_positions / 72 * (254/100)))
        (round2 (listMin top_positions / 72 * (254/100)))
        (round2 ((page_width - listMax right_positions) / 72 * (254/100)))

/-- Embeds `detect_document_type`: word-count bands. -/
def detect_document_type (s : DocStructure) : String :=
  if s.totalWords < 500 then "documento_curto"
  else if s.totalWords < 3000 then "artigo_ou_relatorio"
  else if s.totalWords < 10000 then "monografia_ou_tcc"
  else "dissertacao_ou_tese"

/-- The unified vision value.  `visual_margins = none` models the JSON
`null` written by the degraded-mode caller; `some .emptyDict` models the
empty dict `{}` returned by `calculate_visual_margins`. -/
structure Vision where
  structure_ : DocStructure
  visual : Option VisualLayout
  visual_margins : Option VisualMargins
  document_type : String
  note : Option String
deriving Repr, DecidableEq

/-- Embeds `document_vision.merge_docx_and_pdf_data`.  Called with `None` for
`pdf_visual` it raises (`calculate_visual_margins` subscripts its
argument), modelled as `Except.error`; it never produces a `null`
`visual_margins`. -/
def merge_docx_and_pdf_data (docx_structure : DocStructure)
    (pdf_visual : Option VisualLayout) : Except String Vision :=
  match pdf_visual with
  | none => .error "TypeError: NoneType object is not subscriptable"
  | some v =>
    .ok { structure_ := docx_structure,
          visual := some v,
          visual_margins := some (calculate_visual_margins v),
          document_type := detect_document_type docx_structure,
          note := none }

/-- The degraded vision dict built by the router when
`convert_docx_to_pdf` fails: structure only, `visual` and
`visual_margins` both `null`, with an explanatory note. -/
def degraded_vision (docx_structure : DocStructure) : Vision :=
  { structure_ := docx_structure,
    visual := none,
    visual_margins := none,
    document_type := "unknown",
    note := some "Conversão para PDF não disponível. Retornando apenas estrutura DOCX." }

/-- The router's vision assembly: merge when rendering succeeded, the
caller-built degraded vision when it failed (the router does not call
`merge_docx_and_pdf_data` in the failure branch). -/
def get_complete_vision (docx_structure : DocStructure)
    (render : Option VisualLayout) : Except String Vision :=
  match render with
  | some v => merge_docx_and_pdf_data docx_structure (some v)
  | none => .ok (degraded_vision docx_structure)

/-! ## Validator (validator.DocumentValidator)

The validator reads the rendered PDF through PyMuPDF's
blocks → lines → spans hierarchy; a block is a text block when it has a
`lines` key (`lines = some _`), an image block otherwise. -/

/-- A PyMuPDF span (font and size are all the validator reads). -/
structure PdfSpan where
  font : String
  size : ℚ
deriving Repr, DecidableEq

/-- A PyMuPDF line with its bbox. -/
structure PdfLine where
  x0 : ℚ
  y0 : ℚ
  x1 : ℚ
  y1 : ℚ
  spans : List PdfSpan
deriving Repr, DecidableEq

/-- A PyMuPDF block with its bbox; `lines = none` models an image block. -/
structure PdfBlock where
  x0 : ℚ
  y0 : ℚ
  x1 : ℚ
  y1 : ℚ
  lines : Option (List PdfLine)
deriving Repr, DecidableEq

/-- A rendered page. -/
structure PdfPage where
  width : ℚ
  height : ℚ
  blocks : List PdfBlock
deriving Repr, DecidableEq

/-- A rendered document. -/
structure Pdf where
  pages : List PdfPage
deriving Repr, DecidableEq

/-- Category report of `validate_margins` (fields the claims read). -/
structure MarginReport where
  valid : Bool
  score : ℚ
  reason : Option String
deriving Repr, DecidableEq

/-- Margin tolerance `self.tolerance_cm`. -/
def tolerance_cm : ℚ := 3/10

/-- Size tolerance `self.tolerance_pt`. -/
def tolerance_pt : ℚ := 2

/-- Embeds `DocumentValidator.validate_margins`: measure page-1 text-block margins
in cm against 3/3/2/2 with 0.3 cm tolerance;
`score = max(0, 100 - avgDeviation * 30)`. -/
def validate_margins (pdf : Pdf) : MarginReport :=
  match pdf.pages with
  | [] => { valid := false, reason := some "Documento vazio", score := 0 }
  | page :: _ =>
    let text_blocks := page.blocks.filter (fun b => b.lines.isSome)
    if text_blocks.isEmpty then
      { valid := false, reason := some "Nenhum texto encontrado", score := 0 }
    else
      let left_margin_cm := listMin (text_blocks.map (fun b => b.x0)) / 72 * (254/100)
      let top_margin_cm := listMin (text_blocks.map (fun b => b.y0)) / 72 * (254/100)
      let right_margin_cm := (page.width - listMax (text_blocks.map (fun b => b.x1))) / 72 * (254/100)
      let bottom_margin_cm := (page.height - listMax (text_blocks.map (fun b => b.y1))) / 72 * (254/100)
      let valid_left := |left_margin_cm - 3| ≤ tolerance_cm
      let valid_top := |top_margin_cm - 3| ≤ tolerance_cm
      let valid_right := |right_margin_cm - 2| ≤ tolerance_cm
      let valid_bottom := |bottom_margin_cm - 2| ≤ tolerance_cm
      let avg_deviation :=
        (|left_margin_cm - 3| + |top_margin_cm - 3| +
         |right_margin_cm - 2| + |bottom_margin_cm - 2|) / 4
      { valid := decide valid_left && decide valid_top && decide valid_right && decide valid_bottom,
        reason := none,
        score := round1 (max 0 (100 - avg_deviation * 30)) }

/-- Category report of `validate_fonts`. -/
structure FontReport where
  valid : Bool
  score : ℚ
  reason : Option String
  main_font : String
  main_size : ℚ
deriving Repr, DecidableEq

/-- All spans on the first `min(3, len(pdf))` pages, in reading order. -/
def fontSpans (pdf : Pdf) : List PdfSpan :=
  (pdf.pages.take 3).foldr
    (fun page acc =>
      page.blocks.foldr
        (fun b acc' =>
          match b.lines with
          | some lines => lines.foldr (fun l acc'' => l.spans ++ acc'') acc'
          | none => acc')
        acc)
    []

/-- Embeds `fonts_found` histogram (insertion-ordered). -/
def fontsFound (pdf : Pdf) : List (String × ℕ) :=
  (fontSpans pdf).foldl (fun acc s => bump s.font acc) []

/-- Embeds `sizes_found` histogram over `round(size, 1)` (insertion-ordered). -/
def sizesFound (pdf : Pdf) : List (ℚ × ℕ) :=
  (fontSpans pdf).foldl (fun acc s => bump (round1 s.size) acc) []

/-- Embeds `max(d, key=d.get)`: the first key attaining the maximal count, in
insertion order (Python's `max` keeps the first maximum). -/
def argmaxCount {α : Type} (dflt : α) : List (α × ℕ) → α
  | [] => dflt
  | kv :: rest => (rest.foldl (fun best c => if c.2 > best.2 then c else best) kv).1

/-- Substring test modelling Python's `"Arial" in font`. -/
def strContains (hay needle : String) : Bool :=
  (List.range (hay.data.length + 1)).any
    (fun i => needle.data.isPrefixOf (hay.data.drop i))

/-- Embeds `has_correct_font`: some histogram font name contains `"Arial"` or
`"Times"` as a substring. -/
def hasCorrectFont (pdf : Pdf) : Bool :=
  (fontsFound pdf).any (fun kv => strContains kv.1 "Arial") ||
  (fontsFound pdf).any (fun kv => strContains kv.1 "Times")

/-- Embeds `main_size`: the dominant (most frequent) rounded span size. -/
def mainSize (pdf : Pdf) : ℚ := argmaxCount 0 (sizesFound pdf)

/-- Embeds `DocumentValidator.validate_fonts`: font histograms over the first 3
pages; `score = (50 if correct font else 0) + (50 if |main_size - 12| ≤ 2
else max(0, 50 - |main_size - 12| * 5))`. -/
def validate_fonts (pdf : Pdf) : FontReport :=
  if pdf.pages.isEmpty then
    { valid := false, reason := some "Documento vazio", score := 0,
      main_font := "", main_size := 0 }
  else if (fontSpans pdf).isEmpty then
    { valid := false, reason := some "Nenhum texto encontrado", score := 0,
      main_font := "", main_size := 0 }
  else
    let main_font := argmaxCount "Desconhecida" (fontsFound pdf)
    let main_size := mainSize pdf
    let has_correct_font := hasCorrectFont pdf
    let has_12pt := |main_size - 12| ≤ tolerance_pt
    let font_score : ℚ := if has_correct_font then 50 else 0
    let size_score : ℚ := if has_12pt then 50 else max 0 (50 - |main_size - 12| * 5)
    { valid := has_correct_font && decide has_12pt,
      reason := none,
      main_font := main_font,
      main_size := main_size,
      score := round1 (font_score + size_score) }

/-- Category report of `validate_spacing`. -/
structure SpacingReport where
  valid : Bool
  score : ℚ
  reason : Option String
deriving Repr, DecidableEq

/-- Gap ratios of consecutive lines inside one block:
`(next.top - prev.bottom) / prev.height`, skipped when the previous line
has non-positive height. -/
def blockGapRatios : List PdfLine → List ℚ
  | [] => []
  | [_] => []
  | a :: b :: rest =>
    (if a.y1 - a.y0 > 0 then [(b.y0 - a.y1) / (a.y1 - a.y0)] else []) ++
    blockGapRatios (b :: rest)

/-- All gap ratios measured on page 1. -/
def pageGapRatios (page : PdfPage) : List ℚ :=
  page.blocks.foldr
    (fun b acc =>
      match b.lines with
      | some lines => blockGapRatios lines ++ acc
      | none => acc)
    []

/-- Embeds `DocumentValidator.validate_spacing`: mean gap ratio on page 1 compared
to 0.5 with tolerance 0.3; `score = max(0, 100 - deviation * 150)`. -/
def validate_spacing (pdf : Pdf) : SpacingReport :=
  match pdf.pages with
  | [] => { valid := false, reason := some "Documento vazio", score := 0 }
  | page :: _ =>
    let line_spacings := pageGapRatios page
    if line_spacings.isEmpty then
      { valid := false, reason := some "Não foi possível medir espaçamento", score := 0 }
    else
      let avg_spacing := line_spacings.sum / (line_spacings.length : ℚ)
      let deviation := |avg_spacing - 1/2|
      { valid := decide (deviation ≤ 3/10),
        reason := none,
        score := round1 (max 0 (100 - deviation * 150)) }

/-- Category report of `validate_alignment`; the score is real-valued
because the standard deviation involves a square root, and `valid` is the
proposition `left_std < 10 ∧ right_std < 10`. -/
structure AlignReport where
  valid : Prop
  score : ℝ
  reason : Option String

/-- Sample variance (denominator `n - 1`), the square of
`statistics.stdev`. -/
def sampleVariance (xs : List ℚ) : ℚ :=
  if xs.length ≤ 1 then 0
  else
    let n : ℚ := xs.length
    let m := xs.sum / n
    ((xs.map (fun x => (x - m) ^ 2)).sum) / (n - 1)

/-- Embeds `statistics.stdev` as a real number. -/
noncomputable def stdev (xs : List ℚ) : ℝ :=
  Real.sqrt ((sampleVariance xs : ℚ) : ℝ)

/-- Embeds `statistics.stdev(xs) if len(xs) > 1 else 0`. -/
noncomputable def stdevOrZero (xs : List ℚ) : ℝ :=
  if xs.length > 1 then stdev xs else 0

/-- The score block of `validate_alignment`: start at 100, subtract
`min(40, (std − 10)*2)` for each side whose deviation exceeds 10 pt,
clamp at 0. -/
noncomputable def alignment_raw_score (left_std right_std : ℝ) : ℝ :=
  let score1 := if left_std > 10 then 100 - min 40 ((left_std - 10) * 2) else 100
  let score2 := if right_std > 10 then score1 - min 40 ((right_std - 10) * 2) else score1
  max 0 score2

/-- Rounding a real to 1 decimal place (`round(x, 1)`). -/
noncomputable def round1R (x : ℝ) : ℝ := ((round (x * 10) : ℤ) : ℝ) / 10

/-- All lines of a page, in block order. -/
def pageLines (page : PdfPage) : List PdfLine :=
  page.blocks.foldr
    (fun b acc =>
      match b.lines with
      | some lines => lines ++ acc
      | none => acc)
    []

/-- Embeds `DocumentValidator.validate_alignment`: standard deviation of line left
edges and of `pageWidth - right edge` on page 1; each side above 10 pt of
deviation costs `min(40, (std - 10) * 2)` points, and the result is
clamped at 0. -/
noncomputable def validate_alignment (pdf : Pdf) : AlignReport :=
  match pdf.pages with
  | [] => { valid := False, reason := some "Documento vazio", score := 0 }
  | page :: _ =>
    let lines := pageLines page
    let left_margins := lines.map (fun l => l.x0)
    let right_margins := lines.map (fun l => page.width - l.x1)
    if left_margins.isEmpty then
      { valid := False, reason := some "Nenhuma linha encontrada", score := 0 }
    else
      let left_std : ℝ := stdevOrZero left_margins
      let right_std : ℝ := stdevOrZero right_margins
      { valid := left_std < 10 ∧ right_std < 10,
        reason := none,
        score := round1R (alignment_raw_score left_std right_std) }

/-- Aggregate of `validate_document_quality` (pure part, after the PDF is
opened): the four category reports and the overall mean score. -/
structure QualityReport where
  margins : MarginReport
  fonts : FontReport
  spacing : SpacingReport
  alignment : AlignReport
  overall_score : ℝ

/-- Embeds `validator.validate_document_quality` on an opened rendered document. -/
noncomputable def validate_document_quality (pdf : Pdf) : QualityReport :=
  let m := validate_margins pdf
  let f := validate_fonts pdf
  let s := validate_spacing pdf
  let a := validate_alignment pdf
  { margins := m, fonts := f, spacing := s, alignment := a,
    overall_score := round1R ((((m.score : ℝ) + (f.score : ℝ) + (s.score : ℝ)) + a.score) / 4) }

/-! ## Claim-side formula (for comparison with the code) -/

/-- Modelled from the spec: the font score formula claimed in §4.7,
`score = 50*hasCorrectFont + clamp(50 - |dominantSize-12|*5, 0, 50)`,
to be compared with the score computed by `validate_fonts`. -/
def fontScoreClaimFormula (has_correct_font : Bool) (dominant_size : ℚ) : ℚ :=
  (if has_correct_font then 50 else 0) + max 0 (min 50 (50 - |dominant_size - 12| * 5))

/-! ## Concrete fixtures used by counterexamples and witnesses -/

/-- A plain body paragraph (style `Normal`) with one run in the given font. -/
def normalBodyPara (fontName : String) : SPara :=
  { styleName := "Normal", text := "Texto de corpo", alignment := "JUSTIFY (4)",
    lineSpacing := some 1, firstLineIndent := some 1,
    runs := [{ text := "Texto de corpo", font := { name := some fontName, size := some 12 } }] }

/-- A structure whose first section deviates from the margin targets on
every axis by 1 cm (beyond the 0.3 cm tolerance). -/
def offMarginsStructure : DocStructure :=
  { sections := [{ margins := { top := some 2, bottom := some 3, left := some 2, right := some 3 } }],
    paragraphs := [normalBodyPara "Arial"],
    totalWords := 3 }

/-- Five body paragraphs in a 60/40 two-font split (3 × Arial, 2 × Times). -/
def twoFontParagraphs : List SPara :=
  [normalBodyPara "Arial", normalBodyPara "Arial", normalBodyPara "Arial",
   normalBodyPara "Times New Roman", normalBodyPara "Times New Roman"]

/-- A structure with compliant margins and the 60/40 two-font body. -/
def okMarginsStructure : DocStructure :=
  { sections := [{ margins := { top := some 3, bottom := some 2, left := some 3, right := some 2 } }],
    paragraphs := twoFontParagraphs, totalWords := 15 }

/-- An executor body paragraph. -/
def exBodyPara (t : String) : ExPara :=
  { styleName := "Normal", text := t, alignment := some .left,
    lineSpacing := some 1, firstLineIndent := none,
    runs := [{ text := t, fontName := some "Calibri", fontSize := some 11 }] }

/-- An executor heading paragraph. -/
def exHeadingPara : ExPara :=
  { styleName := "Heading 1", text := "Título", alignment := some .center,
    lineSpacing := none, firstLineIndent := none,
    runs := [{ text := "Título", fontName := some "Calibri", fontSize := some 14 }] }

/-- A small live document: one section, one heading and two body paragraphs. -/
def smallDoc : ExDoc :=
  { sections := [{ topMargin := some 2, bottomMargin := some 2,
                   leftMargin := some 2, rightMargin := some 2 }],
    paragraphs := [exHeadingPara, exBodyPara "Primeiro", exBodyPara "Segundo"] }

/-- A plan whose middle action targets `paragraph_500` in a 3-paragraph
document; the surrounding actions are valid. -/
def badPlan : List Action :=
  [{ action := "fix_font", target := "all_body",
     params := { name := some "Arial", size := some 12 },
     description := "Padronizar fonte", priority := some 1 },
   { action := "fix_font", target := "paragraph_500",
     params := { name := some "Arial", size := some 12 },
     description := "Fonte em parágrafo inexistente", priority := some 2 },
   { action := "fix_spacing", target := "all_body",
     params := { line_spacing := some 2 },
     description := "Espaçamento", priority := some 3 }]

/-- The out-of-range index 500 as an integer (used by witnesses). -/
def n500 : ℤ := 500

/-- The negative index −1 as an integer (used by witnesses). -/
def negOne : ℤ := -1

/-- An action with target `all_body` (used to state frame conditions). -/
def allBodyAction (op : String) (params : Params) (desc : String) (prio : Option ℤ) : Action :=
  { action := op, target := "all_body", params := params,
    description := desc, priority := prio }

/-- A rendered page whose only span is Arial 11 pt. -/
def arial11Page : PdfPage :=
  { width := 595, height := 842,
    blocks := [{ x0 := 85, y0 := 85, x1 := 510, y1 := 100,
                 lines := some [{ x0 := 85, y0 := 85, x1 := 510, y1 := 100,
                                  spans := [{ font := "Arial", size := 11 }] }] }] }

/-- A one-page rendered document whose only span is Arial 11 pt. -/
def arial11Pdf : Pdf := { pages := [arial11Page] }

/-- A rendered document with zero pages. -/
def emptyPdf : Pdf := { pages := [] }

/-- A single-page rendered document with zero text spans (one image block). -/
def imageOnlyPdf : Pdf :=
  { pages := [{ width := 595, height := 842,
                blocks := [{ x0 := 0, y0 := 0, x1 := 10, y1 := 10, lines := none }] }] }

/-- A visual page with exactly one span. -/
def oneSpanPage : VPage :=
  { width := 595, height := 842,
    text_blocks := [{ text := "Texto", x0 := 85, y0 := 88, x1 := 510, y1 := 100,
                      font := "Arial", size := 12 }] }

/-- A visual layout with one span on the first page. -/
def oneSpanLayout : VisualLayout :=
  { total_pages := 1, pages := [oneSpanPage] }

/-- A visual layout whose first page has no text span. -/
def noSpanLayout : VisualLayout :=
  { total_pages := 1, pages := [{ width := 595, height := 842, text_blocks := [] }] }

/-! ## Helper lemmas -/

lemma listModify_length {α : Type} (l : List α) (i : ℕ) (f : α → α) :
    (listModify l i f).length = l.length := by
  induction l generalizing i with
  | nil => rfl
  | cons x xs ih =>
    cases i with
    | zero => rfl
    | succ n => simp [listModify, ih]

lemma listModify_comp {α : Type} (l : List α) (i : ℕ) (f g : α → α) :
    listModify (listModify l i f) i g = listModify l i (fun x => g (f x)) := by
  induction l generalizing i with
  | nil => rfl
  | cons x xs ih =>
    cases i with
    | zero => rfl
    | succ n => simp [listModify, ih]

lemma listModify_congr {α : Type} (l : List α) (i : ℕ) (f g : α → α)
    (h : ∀ x, f x = g x) : listModify l i f = listModify l i g := by
  induction l generalizing i with
  | nil => rfl
  | cons x xs ih =>
    cases i with
    | zero => simp [listModify, h]
    | succ n => simp [listModify, ih]

lemma map_idem_of {α : Type} (f : α → α) (h : ∀ x, f (f x) = f x) (l : List α) :
    (l.map f).map f = l.map f := by
  rw [List.map_map]
  exact List.map_congr_left (fun x _ => h x)

lemma applyMarginParams_idem (params : Params) (s : ExSection) :
    applyMarginParams params (applyMarginParams params s) = applyMarginParams params s := by
  unfold applyMarginParams
  cases params.top <;> cases params.bottom <;> cases params.left <;> cases params.right <;> rfl

lemma setParaFont_idem (n : String) (q : ℚ) (p : ExPara) :
    setParaFont n q (setParaFont n q p) = setParaFont n q p := by
  unfold setParaFont setRunFont
  simp [map_idem_of]

lemma exIsBody_setParaFont (n : String) (q : ℚ) (p : ExPara) :
    exIsBody (setParaFont n q p) = exIsBody p := rfl

lemma condMap_idem {α : Type} (c : α → Bool) (f : α → α)
    (hc : ∀ x, c (f x) = c x) (hf : ∀ x, f (f x) = f x) (l : List α) :
    ((l.map fun x => if c x then f x else x).map fun x => if c x then f x else x)
      = l.map fun x => if c x then f x else x := by
  apply map_idem_of
  intro x
  by_cases h : c x = true
  · simp [h, hc, hf]
  · simp at h
    simp [h]

/-! ## Claim C3: merger behaviour -/

/-- C3 (counterexample): calling `merge_docx_and_pdf_data` with a `null`
visual model raises (`calculate_visual_margins` subscripts `None`); it
does not return a degraded Vision, contrary to the claim. -/
theorem C3_merge_null_raises_counterexample :
    merge_docx_and_pdf_data offMarginsStructure none =
      .error "TypeError: NoneType object is not subscriptable" := rfl

/-- C3 (amended): `merge` derives `visualMargins` as
`{left = min x0 /72*2.54, top = min y0 /72*2.54, right = (pageWidth - max x1)/72*2.54}`
(rounded to 2 decimals) whenever `visual` is non-null and the first page
has at least one span; with a non-null `visual` and no first-page span it
returns a Vision whose `visualMargins` is the empty dict `{}` (not
`null`).  With a `null` visual, `merge` raises; the render-failed
degraded Vision — with `visual = null` and `visualMargins = null` — is
built by the caller without invoking `merge`. -/
theorem C3_merge_behaviour (s : DocStructure) (v : VisualLayout)
    (fp : VPage) (rest : List VPage)
    (hp : v.pages = fp :: rest) (hs : fp.text_blocks.isEmpty = false) :
    merge_docx_and_pdf_data s (some v) =
      .ok { structure_ := s, visual := some v,
            visual_margins := some (.margins
              (round2 (listMin (fp.text_blocks.map (fun b => b.x0)) / 72 * (254/100)))
              (round2 (listMin (fp.text_blocks.map (fun b => b.y0)) / 72 * (254/100)))
              (round2 ((fp.width - listMax (fp.text_blocks.map (fun b => b.x1))) / 72 * (254/100)))),
            document_type := detect_document_type s, note := none } ∧
    (∀ v' : VisualLayout,
        (v'.pages = [] ∨ ∃ fp' rest', v'.pages = fp' :: rest' ∧ fp'.text_blocks = []) →
        merge_docx_and_pdf_data s (some v') =
          .ok { structure_ := s, visual := some v', visual_margins := some .emptyDict,
                document_type := detect_document_type s, note := none }) ∧
    merge_docx_and_pdf_data s none = .error "TypeError: NoneType object is not subscriptable" ∧
    get_complete_vision s none = .ok (degraded_vision s) ∧
    (degraded_vision s).visual = none ∧ (degraded_vision s).visual_margins = none := by
  refine ⟨?_, ?_, rfl, rfl, rfl, rfl⟩
  · simp [merge_docx_and_pdf_data, calculate_visual_margins, hp, hs]
  · rintro v' (h | ⟨fp', rest', hp', hb'⟩)
    · simp [merge_docx_and_pdf_data, calculate_visual_margins, h]
    · simp [merge_docx_and_pdf_data, calculate_visual_margins, hp', hb']

/-- C3 witness: the amended theorem applied to a concrete one-span layout. -/
theorem C3_merge_behaviour_witness :
    oneSpanLayout.pages = [oneSpanPage] ∧ oneSpanPage.text_blocks.isEmpty = false ∧
    merge_docx_and_pdf_data offMarginsStructure (some oneSpanLayout) =
      .ok { structure_ := offMarginsStructure, visual := some oneSpanLayout,
            visual_margins := some (.margins
              (round2 (listMin (oneSpanPage.text_blocks.map (fun b => b.x0)) / 72 * (254/100)))
              (round2 (listMin (oneSpanPage.text_blocks.map (fun b => b.y0)) / 72 * (254/100)))
              (round2 ((oneSpanPage.width - listMax (oneSpanPage.text_blocks.map (fun b => b.x1))) / 72 * (254/100)))),
            document_type := detect_document_type offMarginsStructure, note := none } :=
  ⟨rfl, rfl, (C3_merge_behaviour offMarginsStructure oneSpanLayout oneSpanPage [] rfl rfl).1⟩

/-! ## Claim C1: margin issue and margin action -/

/-- C1 (counterexample): a Vision whose only section's margins are
2/3/2/3 cm — 1 cm (well beyond the 0.3 cm tolerance) from the 3/3/2/2
targets on every axis — makes the rule-based `IssueDetector` emit no
issue at all, in particular not exactly one margin issue. -/
theorem C1_no_margin_issue_counterexample :
    offMarginsStructure.sections =
      [{ margins := { top := some 2, bottom := some 3, left := some 2, right := some 3 } }] ∧
    needs_margin_fix { top := some 2, bottom := some 3, left := some 2, right := some 3 } = true ∧
    |(2 : ℚ) - 3| > tolerance_cm ∧ |(3 : ℚ) - 2| > tolerance_cm ∧
    detect_style_inconsistencies offMarginsStructure.paragraphs = [] := by
  refine ⟨by decide, by decide, ?_, ?_, by decide⟩ <;> norm_num [tolerance_cm]

/-- C1 (amended): the rule-based `IssueDetector` never emits a margin
issue — every issue it emits has one of the four inconsistency types —
and whenever `sections[0].margins` differ from the targets on any axis
(the planner compares with exact `!=`, not with a tolerance), the
`ActionPlanner` emits exactly one `fix_margin` action, targeting
`section_0`, whose params are the norm targets
`{top: 3.0, left: 3.0, bottom: 2.0, right: 2.0}` and not the measured
values. -/
theorem C1_margin_plan (abnt incons : List Issue) (s : DocStructure)
    (paras : List SPara) (sec : SSection) (rest : List SSection)
    (hs : s.sections = sec :: rest) (hm : needs_margin_fix sec.margins = true) :
    ((generate_action_plan_from_issues abnt incons s).filter
        (fun a => a.action = "fix_margin")) = [marginAction 1] ∧
    (marginAction 1).params =
      { top := some 3, left := some 3, bottom := some 2, right := some 2 } ∧
    (marginAction 1).target = "section_0" ∧
    (∀ i ∈ detect_style_inconsistencies paras,
      i.type = "inconsistent_fonts" ∨ i.type = "inconsistent_alignment" ∨
      i.type = "inconsistent_spacing" ∨ i.type = "inconsistent_indent") := by
  refine ⟨?_, rfl, rfl, ?_⟩
  · unfold generate_action_plan_from_issues
    rw [hs]
    simp only [hm, if_true]
    split_ifs <;>
      simp [marginAction, fontAction, spacingAction, alignmentAction, indentAction]
  · intro i hi
    unfold detect_style_inconsistencies at hi
    simp only [List.mem_append] at hi
    split_ifs at hi <;> aesop

/-- C1 witness: the amended theorem applied to the concrete off-margin
structure. -/
theorem C1_margin_plan_witness :
    offMarginsStructure.sections =
      ({ margins := { top := some 2, bottom := some 3, left := some 2, right := some 3 } } :
        SSection) :: [] ∧
    needs_margin_fix { top := some 2, bottom := some 3, left := some 2, right := some 3 } = true ∧
    ((generate_action_plan_from_issues [] [] offMarginsStructure).filter
        (fun a => a.action = "fix_margin")) = [marginAction 1] :=
  ⟨rfl, by decide,
    (C1_margin_plan [] [] offMarginsStructure []
      { margins := { top := some 2, bottom := some 3, left := some 2, right := some 3 } }
      [] rfl (by decide)).1⟩

/-! ## Claim C2: two-font 60/40 split -/

/-- C2 (counterexample): five body paragraphs in a 60/40 two-font split
(3 × Arial 12, 2 × Times New Roman 12) produce exactly two histogram
keys, which is not `> 2`, so the detector emits no `inconsistent_fonts`
issue (indeed no issue at all) and the planner emits no `fix_font`
action — contrary to the claim. -/
theorem C2_two_fonts_counterexample :
    fontsUsed (bodyParagraphs twoFontParagraphs) =
      [(("Arial", some 12), 3), (("Times New Roman", some 12), 2)] ∧
    (bodyParagraphs twoFontParagraphs).length = 5 ∧
    detect_style_inconsistencies twoFontParagraphs = [] ∧
    generate_action_plan_from_issues []
        (detect_style_inconsistencies twoFontParagraphs) okMarginsStructure = [] :=
  ⟨by decide, by decide, by decide, by decide⟩

/-- C2 (amended): the font-consistency rule fires only when the body-run
histogram has more than 2 distinct `(name, size)` keys; in that case the
detector emits exactly one `inconsistent_fonts` issue whose
`affected_count` is the total number of body paragraphs (not just the
minority-font ones), and the planner emits exactly one `fix_font` action
with target `all_body` and params `{name: "Arial", size: 12}`. -/
theorem C2_font_issue_plan (paras : List SPara) (abnt : List Issue) (s : DocStructure)
    (hf : (fontsUsed (bodyParagraphs paras)).length > 2) :
    ((detect_style_inconsistencies paras).filter
        (fun i => i.type = "inconsistent_fonts")) =
      [{ type := "inconsistent_fonts", severity := "high",
         recommendation := "Padronizar para Arial 12pt",
         affected_count := (bodyParagraphs paras).length }] ∧
    ((generate_action_plan_from_issues abnt (detect_style_inconsistencies paras) s).filter
        (fun a => a.action = "fix_font")).map (fun a => (a.target, a.params)) =
      [("all_body", { name := some "Arial", size := some 12 : Params })] := by
  have hbody : (bodyParagraphs paras).isEmpty = false := by
    cases hb : bodyParagraphs paras with
    | nil => rw [hb] at hf; simp [fontsUsed] at hf
    | cons a l => rfl
  have hdet : (detect_style_inconsistencies paras).filter
      (fun i => i.type = "inconsistent_fonts") =
      [{ type := "inconsistent_fonts", severity := "high",
         recommendation := "Padronizar para Arial 12pt",
         affected_count := (bodyParagraphs paras).length }] := by
    unfold detect_style_inconsistencies
    simp only [hbody, Bool.false_eq_true, if_false, hf, if_true]
    split_ifs <;> simp
  refine ⟨hdet, ?_⟩
  have hfind : ((detect_style_inconsistencies paras).find?
      (fun i => i.type = "inconsistent_fonts")).isSome = true := by
    rw [List.find?_isSome]
    have : ({ type := "inconsistent_fonts", severity := "high",
              recommendation := "Padronizar para Arial 12pt",
              affected_count := (bodyParagraphs paras).length } : Issue) ∈
        (detect_style_inconsistencies paras).filter
          (fun i => i.type = "inconsistent_fonts") := by
      rw [hdet]; exact List.mem_singleton.mpr rfl
    rcases List.mem_filter.mp this with ⟨hmem, hp⟩
    exact ⟨_, hmem, hp⟩
  unfold generate_action_plan_from_issues
  rcases s.sections with _ | ⟨sec, rest⟩ <;>
    simp only [hfind, if_true] <;>
    split_ifs <;>
    simp [marginAction, fontAction, spacingAction, alignmentAction, indentAction]

/-- C2 witness: the amended theorem applied to a nine-paragraph body in a
three-font split. -/
theorem C2_font_issue_plan_witness :
    (fontsUsed (bodyParagraphs (twoFontParagraphs ++ [normalBodyPara "Courier New"]))).length > 2 ∧
    ((detect_style_inconsistencies (twoFontParagraphs ++ [normalBodyPara "Courier New"])).filter
        (fun i => i.type = "inconsistent_fonts")) =
      [{ type := "inconsistent_fonts", severity := "high",
         recommendation := "Padronizar para Arial 12pt",
         affected_count := (bodyParagraphs (twoFontParagraphs ++ [normalBodyPara "Courier New"])).length }] :=
  ⟨by decide,
    (C2_font_issue_plan (twoFontParagraphs ++ [normalBodyPara "Courier New"]) []
      okMarginsStructure (by decide)).1⟩

/-! ## Rounding and validator lemmas -/

lemma round_mono {α : Type} [LinearOrderedField α] [FloorRing α]
    {x y : α} (h : x ≤ y) : round x ≤ round y := by
  rw [round_eq, round_eq]
  exact Int.floor_le_floor (by linarith)

lemma le_round1_of_le {n : ℤ} {x : ℚ} (h : (n : ℚ) ≤ x) : (n : ℚ) ≤ round1 x := by
  unfold round1
  have h10 : ((10 * n : ℤ) : ℚ) ≤ x * 10 := by push_cast; linarith
  have hr := round_mono (α := ℚ) h10
  rw [round_intCast] at hr
  have : ((10 * n : ℤ) : ℚ) ≤ ((round (x * 10) : ℤ) : ℚ) := by exact_mod_cast hr
  push_cast at this
  linarith

lemma le_round1R_of_le {n : ℤ} {x : ℝ} (h : (n : ℝ) ≤ x) : (n : ℝ) ≤ round1R x := by
  unfold round1R
  have h10 : ((10 * n : ℤ) : ℝ) ≤ x * 10 := by push_cast; linarith
  have hr := round_mono (α := ℝ) h10
  rw [round_intCast] at hr
  have : ((10 * n : ℤ) : ℝ) ≤ ((round (x * 10) : ℤ) : ℝ) := by exact_mod_cast hr
  push_cast at this
  linarith

lemma round1_nonneg {x : ℚ} (h : 0 ≤ x) : 0 ≤ round1 x := by
  have := le_round1_of_le (n := 0) (x := x) (by exact_mod_cast h)
  exact_mod_cast this

lemma validate_margins_score_nonneg (pdf : Pdf) : 0 ≤ (validate_margins pdf).score := by
  unfold validate_margins
  rcases pdf.pages with _ | ⟨page, rest⟩
  · norm_num
  · dsimp only
    split
    · norm_num
    · exact round1_nonneg (le_max_left 0 _)

lemma validate_fonts_score_nonneg (pdf : Pdf) : 0 ≤ (validate_fonts pdf).score := by
  unfold validate_fonts
  split
  · norm_num
  · split
    · norm_num
    · refine round1_nonneg (add_nonneg ?_ ?_)
      · split <;> norm_num
      · split
        · norm_num
        · exact le_max_left 0 _

lemma validate_spacing_score_nonneg (pdf : Pdf) : 0 ≤ (validate_spacing pdf).score := by
  unfold validate_spacing
  rcases pdf.pages with _ | ⟨page, rest⟩
  · norm_num
  · dsimp only
    split
    · norm_num
    · exact round1_nonneg (le_max_left 0 _)

lemma fontSpans_eq_nil (pdf : Pdf)
    (h : ∀ page ∈ pdf.pages, ∀ b ∈ page.blocks, b.lines = none) :
    fontSpans pdf = [] := by
  have hblocks : ∀ (bs : List PdfBlock) (acc : List PdfSpan), (∀ b ∈ bs, b.lines = none) →
      bs.foldr (fun b acc' =>
        match b.lines with
        | some lines => lines.foldr (fun l acc'' => l.spans ++ acc'') acc'
        | none => acc') acc = acc := by
    intro bs
    induction bs with
    | nil => intro acc _; rfl
    | cons b bs ih =>
      intro acc hb
      simp only [List.foldr_cons]
      rw [ih acc (fun x hx => hb x (List.mem_cons_of_mem _ hx)),
        hb b (List.mem_cons_self _ _)]
  unfold fontSpans
  have hsub : ∀ page ∈ pdf.pages.take 3, ∀ b ∈ page.blocks, b.lines = none :=
    fun page hp => h page (List.take_subset _ _ hp)
  revert hsub
  generalize pdf.pages.take 3 = ps
  intro hsub
  induction ps with
  | nil => rfl
  | cons p ps ih =>
    simp only [List.foldr_cons]
    rw [ih (fun page hpg => hsub page (List.mem_cons_of_mem _ hpg))]
    exact hblocks p.blocks [] (hsub p (List.mem_cons_self _ _))

lemma linesFold_nil (bs : List PdfBlock) (h : ∀ b ∈ bs, b.lines = none) :
    bs.foldr (fun b acc =>
      match b.lines with
      | some lines => lines ++ acc
      | none => acc) [] = [] := by
  induction bs with
  | nil => rfl
  | cons b bs ih =>
    simp only [List.foldr_cons]
    rw [ih (fun x hx => h x (List.mem_cons_of_mem _ hx)), h b (List.mem_cons_self _ _)]

lemma pageLines_eq_nil (page : PdfPage) (h : ∀ b ∈ page.blocks, b.lines = none) :
    pageLines page = [] :=
  linesFold_nil page.blocks h

lemma gapFold_nil (bs : List PdfBlock) (h : ∀ b ∈ bs, b.lines = none) :
    bs.foldr (fun b acc =>
      match b.lines with
      | some lines => blockGapRatios lines ++ acc
      | none => acc) [] = [] := by
  induction bs with
  | nil => rfl
  | cons b bs ih =>
    simp only [List.foldr_cons]
    rw [ih (fun x hx => h x (List.mem_cons_of_mem _ hx)), h b (List.mem_cons_self _ _)]

lemma pageGapRatios_eq_nil (page : PdfPage) (h : ∀ b ∈ page.blocks, b.lines = none) :
    pageGapRatios page = [] :=
  gapFold_nil page.blocks h

/-! ## Claim C6: font score formula -/

/-- C6 (counterexample): on a one-page render whose single span is
Arial 11 pt, the dominant size 11 is within 2 pt of 12, so the code
awards the full 50-point size component and scores 100 — while the
claimed clamp formula `50*hasCorrectFont + clamp(50 - |11-12|*5, 0, 50)`
gives 95.  The claim fails exactly for dominant sizes within 2 pt of 12
but not equal to 12. -/
theorem C6_font_score_counterexample :
    hasCorrectFont arial11Pdf = true ∧
    mainSize arial11Pdf = 11 ∧
    (validate_fonts arial11Pdf).score = 100 ∧
    fontScoreClaimFormula (hasCorrectFont arial11Pdf) (mainSize arial11Pdf) = 95 ∧
    (validate_fonts arial11Pdf).score ≠
      fontScoreClaimFormula (hasCorrectFont arial11Pdf) (mainSize arial11Pdf) := by
  have hr : round1 (11 : ℚ) = 11 := by norm_num [round1, round_eq]
  have hmain : mainSize arial11Pdf = 11 := by
    simp [mainSize, sizesFound, fontSpans, arial11Pdf, arial11Page, bump, argmaxCount, hr]
  have hfont : hasCorrectFont arial11Pdf = true := by decide
  have hscore : (validate_fonts arial11Pdf).score = 100 := by
    have h1 : arial11Pdf.pages.isEmpty = false := by decide
    have h2 : (fontSpans arial11Pdf).isEmpty = false := by decide
    rw [validate_fonts, h1, h2]
    simp only [Bool.false_eq_true, if_false, hfont, hmain, if_true]
    norm_num [tolerance_pt, round1, round_eq]
  have hclaim : fontScoreClaimFormula (hasCorrectFont arial11Pdf) (mainSize arial11Pdf) = 95 := by
    rw [hfont, hmain]
    norm_num [fontScoreClaimFormula]
  exact ⟨hfont, hmain, hscore, hclaim, by rw [hscore, hclaim]; norm_num⟩

/-- C6 (amended): for every rendered document with at least one span on
the first 3 pages, the font score is
`50*hasCorrectFont + (50 if |dominantSize − 12| ≤ 2 else clamp(50 − |dominantSize − 12|*5, 0, 50))`
(then rounded to one decimal): the clamp formula of the claim applies
only outside the 2 pt size tolerance, inside which the component is a
flat 50. -/
theorem C6_font_score_formula (pdf : Pdf) (h : (fontSpans pdf).isEmpty = false) :
    (validate_fonts pdf).score =
      round1 ((if hasCorrectFont pdf then 50 else 0) +
        (if |mainSize pdf - 12| ≤ tolerance_pt then 50
         else max 0 (min 50 (50 - |mainSize pdf - 12| * 5)))) ∧
    (validate_fonts pdf).valid =
      (hasCorrectFont pdf && decide (|mainSize pdf - 12| ≤ tolerance_pt)) := by
  have hp : pdf.pages.isEmpty = false := by
    cases hpp : pdf.pages with
    | nil =>
      have : fontSpans pdf = [] := by simp [fontSpans, hpp]
      rw [this] at h
      simp at h
    | cons a l => rfl
  have hmin : min (50 : ℚ) (50 - |mainSize pdf - 12| * 5) = 50 - |mainSize pdf - 12| * 5 :=
    min_eq_right (by nlinarith [abs_nonneg (mainSize pdf - 12)])
  rw [validate_fonts, hp, h]
  simp only [Bool.false_eq_true, if_false, hmin]
  constructor <;> trivial

/-- C6 witness: the amended formula applied to the Arial 11 pt render. -/
theorem C6_font_score_formula_witness :
    (fontSpans arial11Pdf).isEmpty = false ∧
    (validate_fonts arial11Pdf).score =
      round1 ((if hasCorrectFont arial11Pdf then 50 else 0) +
        (if |mainSize arial11Pdf - 12| ≤ tolerance_pt then 50
         else max 0 (min 50 (50 - |mainSize arial11Pdf - 12| * 5)))) :=
  ⟨by decide, (C6_font_score_formula arial11Pdf (by decide)).1⟩

/-! ## Claim C7: degenerate inputs score zero -/

/-- C7: on every degenerate rendered input — zero pages, or pages whose
blocks are all image blocks (zero text spans/lines) — each of the four
validator categories returns `valid = false`, `score = 0`, and an
explanatory reason, and the aggregate score of
`validate_document_quality` is 0, with no exception and no division by
zero (all functions are total). -/
theorem C7_degenerate_zero_scores (pdf : Pdf)
    (h : pdf.pages = [] ∨ ∀ page ∈ pdf.pages, ∀ b ∈ page.blocks, b.lines = none) :
    (validate_margins pdf).valid = false ∧ (validate_margins pdf).score = 0 ∧
    (validate_margins pdf).reason.isSome = true ∧
    (validate_fonts pdf).valid = false ∧ (validate_fonts pdf).score = 0 ∧
    (validate_fonts pdf).reason.isSome = true ∧
    (validate_spacing pdf).valid = false ∧ (validate_spacing pdf).score = 0 ∧
    (validate_spacing pdf).reason.isSome = true ∧
    ¬ (validate_alignment pdf).valid ∧ (validate_alignment pdf).score = 0 ∧
    (validate_alignment pdf).reason.isSome = true ∧
    (validate_document_quality pdf).overall_score = 0 := by
  rcases hpp : pdf.pages with _ | ⟨page, rest⟩
  · refine ⟨?_, ?_, ?_, ?_, ?_, ?_, ?_, ?_, ?_, ?_, ?_, ?_, ?_⟩ <;>
      simp [validate_margins, validate_fonts, validate_spacing, validate_alignment,
            validate_document_quality, hpp, round1R]
  · rcases h with hnil | hall
    · rw [hpp] at hnil; cases hnil
    · have hpage : ∀ b ∈ page.blocks, b.lines = none :=
        fun b hb => hall page (by rw [hpp]; exact List.mem_cons_self _ _) b hb
      have hfilter : page.blocks.filter (fun b => b.lines.isSome) = [] :=
        List.filter_eq_nil_iff.mpr (fun b hb => by simp [hpage b hb])
      have hfs : fontSpans pdf = [] := fontSpans_eq_nil pdf hall
      have hgr : pageGapRatios page = [] := pageGapRatios_eq_nil page hpage
      have hpl : pageLines page = [] := pageLines_eq_nil page hpage
      refine ⟨?_, ?_, ?_, ?_, ?_, ?_, ?_, ?_, ?_, ?_, ?_, ?_, ?_⟩ <;>
        simp [validate_margins, validate_fonts, validate_spacing, validate_alignment,
              validate_document_quality, hpp, hfilter, hfs, hgr, hpl, round1R]

/-- C7 witness: the degenerate theorem applied to the zero-page render
and to a single-page render with no text span. -/
theorem C7_degenerate_zero_scores_witness :
    (emptyPdf.pages = [] ∨ ∀ page ∈ emptyPdf.pages, ∀ b ∈ page.blocks, b.lines = none) ∧
    (imageOnlyPdf.pages = [] ∨ ∀ page ∈ imageOnlyPdf.pages, ∀ b ∈ page.blocks, b.lines = none) ∧
    (validate_margins emptyPdf).score = 0 ∧
    (validate_margins imageOnlyPdf).valid = false := by
  have h1 : emptyPdf.pages = [] ∨ ∀ page ∈ emptyPdf.pages, ∀ b ∈ page.blocks, b.lines = none :=
    Or.inl rfl
  have h2 : imageOnlyPdf.pages = [] ∨
      ∀ page ∈ imageOnlyPdf.pages, ∀ b ∈ page.blocks, b.lines = none :=
    Or.inr (by decide)
  exact ⟨h1, h2, (C7_degenerate_zero_scores emptyPdf h1).2.1,
    (C7_degenerate_zero_scores imageOnlyPdf h2).1⟩

/-! ## Claim C10: alignment score floor -/

lemma stdevOrZero_nonneg (xs : List ℚ) : 0 ≤ stdevOrZero xs := by
  unfold stdevOrZero
  split
  · exact Real.sqrt_nonneg _
  · exact le_refl 0

lemma alignment_raw_score_floor (lstd rstd : ℝ) :
    (20 : ℝ) ≤ alignment_raw_score lstd rstd := by
  unfold alignment_raw_score
  have h1 : (60 : ℝ) ≤ (if lstd > 10 then 100 - min 40 ((lstd - 10) * 2) else 100) := by
    split
    · have := min_le_left (40 : ℝ) ((lstd - 10) * 2); linarith
    · norm_num
  refine le_trans ?_ (le_max_right 0 _)
  split
  · have := min_le_left (40 : ℝ) ((rstd - 10) * 2); linarith
  · linarith

/-- C10: on every rendered document whose first page has at least one
text line, the per-side penalty of `validate_alignment` is capped at
`min(40, (std − 10)*2)`, so the two sides subtract at most 80 from 100
and the score is at least 20 (the final `max(0, ·)` clamp is never the
binding bound); consequently the category contributes at least 5 points
to the aggregate mean of `validate_document_quality`. -/
theorem C10_alignment_score_floor (pdf : Pdf) (page : PdfPage) (rest : List PdfPage)
    (hp : pdf.pages = page :: rest) (hl : pageLines page ≠ []) :
    20 ≤ (validate_alignment pdf).score ∧
    5 ≤ (validate_document_quality pdf).overall_score := by
  have h20 : 20 ≤ (validate_alignment pdf).score := by
    have hne : ((pageLines page).map (fun l => l.x0)).isEmpty = false := by
      cases hq : pageLines page with
      | nil => exact absurd hq hl
      | cons a l => rfl
    have hva : (validate_alignment pdf).score =
        round1R (alignment_raw_score
          (stdevOrZero ((pageLines page).map (fun l => l.x0)))
          (stdevOrZero ((pageLines page).map (fun l => page.width - l.x1)))) := by
      unfold validate_alignment
      rw [hp]
      simp only [hne, Bool.false_eq_true, if_false]
    rw [hva]
    have hraw := alignment_raw_score_floor
      (stdevOrZero ((pageLines page).map (fun l => l.x0)))
      (stdevOrZero ((pageLines page).map (fun l => page.width - l.x1)))
    have := le_round1R_of_le (n := 20)
      (x := alignment_raw_score
        (stdevOrZero ((pageLines page).map (fun l => l.x0)))
        (stdevOrZero ((pageLines page).map (fun l => page.width - l.x1))))
      (by exact_mod_cast hraw)
    exact_mod_cast this
  refine ⟨h20, ?_⟩
  have hm := validate_margins_score_nonneg pdf
  have hf := validate_fonts_score_nonneg pdf
  have hs := validate_spacing_score_nonneg pdf
  have hm' : (0 : ℝ) ≤ ((validate_margins pdf).score : ℝ) := by exact_mod_cast hm
  have hf' : (0 : ℝ) ≤ ((validate_fonts pdf).score : ℝ) := by exact_mod_cast hf
  have hs' : (0 : ℝ) ≤ ((validate_spacing pdf).score : ℝ) := by exact_mod_cast hs
  unfold validate_document_quality
  dsimp only
  have harg : ((5 : ℤ) : ℝ) ≤
      ((((validate_margins pdf).score : ℝ) + ((validate_fonts pdf).score : ℝ) +
        ((validate_spacing pdf).score : ℝ)) + (validate_alignment pdf).score) / 4 := by
    push_cast
    linarith
  have := le_round1R_of_le harg
  exact_mod_cast this

/-- C10 witness: the floor applied to the one-line Arial render. -/
theorem C10_alignment_score_floor_witness :
    arial11Pdf.pages = [arial11Page] ∧ pageLines arial11Page ≠ [] ∧
    20 ≤ (validate_alignment arial11Pdf).score :=
  ⟨rfl, by decide,
    (C10_alignment_score_floor arial11Pdf arial11Page [] rfl (by decide)).1⟩

/-! ## Executor lemmas -/

lemma fix_margin_idem {doc d : ExDoc} {t : String} {p : Params} {m : String}
    (h : fix_margin doc t p = .ok (d, m)) : fix_margin d t p = .ok (d, m) := by
  unfold fix_margin at h ⊢
  by_cases h1 : strStartsWith t "section_" = true
  · simp only [h1, if_true] at h ⊢
    cases hti : targetIndex t with
    | none => rw [hti] at h; cases h
    | some idx =>
      simp only [hti] at h ⊢
      by_cases h2 : (doc.sections.length : ℤ) ≤ idx
      · rw [if_pos h2] at h; cases h
      · rw [if_neg h2] at h
        cases hpi : pyIndex doc.sections.length idx with
        | none => rw [hpi] at h; cases h
        | some i =>
          simp only [hpi] at h
          injection h with h'
          injection h' with hd hm
          subst hd; subst hm
          dsimp only
          simp only [listModify_length]
          rw [if_neg h2]
          simp only [hpi]
          rw [listModify_comp, listModify_congr _ _ _ _ (fun x => applyMarginParams_idem p x)]
  · simp only [h1, Bool.false_eq_true, if_false] at h ⊢
    by_cases h3 : t = "all_sections"
    · simp only [h3, if_true] at h ⊢
      injection h with h'
      injection h' with hd hm
      subst hd; subst hm
      dsimp only
      rw [map_idem_of _ (applyMarginParams_idem p)]
    · rw [if_neg h3] at h; cases h

lemma setParaSpacing_idem (q : ℚ) (x : ExPara) :
    setParaSpacing q (setParaSpacing q x) = setParaSpacing q x := rfl

lemma setParaAlignment_idem (a : Align) (x : ExPara) :
    setParaAlignment a (setParaAlignment a x) = setParaAlignment a x := rfl

lemma setParaIndent_idem (q : ℚ) (x : ExPara) :
    setParaIndent q (setParaIndent q x) = setParaIndent q x := rfl

lemma fix_font_idem {doc d : ExDoc} {t : String} {p : Params} {m : String}
    (h : fix_font doc t p = .ok (d, m)) : fix_font d t p = .ok (d, m) := by
  unfold fix_font at h ⊢
  by_cases h1 : t = "all_body"
  · rw [if_pos h1] at h ⊢
    injection h with h'
    injection h' with hd hm
    subst hd; subst hm
    dsimp only
    rw [condMap_idem exIsBody (setParaFont (p.name.getD "Arial") (p.size.getD 12))
      (fun x => rfl) (setParaFont_idem _ _) doc.paragraphs]
  · rw [if_neg h1] at h ⊢
    by_cases h2 : strStartsWith t "paragraph_" = true
    · rw [if_pos h2] at h ⊢
      cases hti : targetIndex t with
      | none => rw [hti] at h; cases h
      | some idx =>
        simp only [hti] at h ⊢
        by_cases h3 : (doc.paragraphs.length : ℤ) ≤ idx
        · rw [if_pos h3] at h; cases h
        · rw [if_neg h3] at h
          cases hpi : pyIndex doc.paragraphs.length idx with
          | none => rw [hpi] at h; cases h
          | some i =>
            simp only [hpi] at h
            injection h with h'
            injection h' with hd hm
            subst hd; subst hm
            dsimp only
            simp only [listModify_length]
            rw [if_neg h3]
            simp only [hpi]
            rw [listModify_comp, listModify_congr _ _ _ _
              (fun x => setParaFont_idem _ _ x)]
    · rw [if_neg h2] at h ⊢
      by_cases h4 : t = "all"
      · rw [if_pos h4] at h ⊢
        injection h with h'
        injection h' with hd hm
        subst hd; subst hm
        dsimp only
        rw [map_idem_of _ (setParaFont_idem _ _)]
      · rw [if_neg h4] at h; cases h

lemma fix_spacing_idem {doc d : ExDoc} {t : String} {p : Params} {m : String}
    (h : fix_spacing doc t p = .ok (d, m)) : fix_spacing d t p = .ok (d, m) := by
  unfold fix_spacing at h ⊢
  by_cases h1 : t = "all_body"
  · rw [if_pos h1] at h ⊢
    injection h with h'
    injection h' with hd hm
    subst hd; subst hm
    dsimp only
    rw [condMap_idem exIsBody (setParaSpacing (p.line_spacing.getD (3/2)))
      (fun x => rfl) (setParaSpacing_idem _) doc.paragraphs]
  · rw [if_neg h1] at h ⊢
    by_cases h2 : strStartsWith t "paragraph_" = true
    · rw [if_pos h2] at h ⊢
      cases hti : targetIndex t with
      | none => rw [hti] at h; cases h
      | some idx =>
        simp only [hti] at h ⊢
        by_cases h3 : (doc.paragraphs.length : ℤ) ≤ idx
        · rw [if_pos h3] at h; cases h
        · rw [if_neg h3] at h
          cases hpi : pyIndex doc.paragraphs.length idx with
          | none => rw [hpi] at h; cases h
          | some i =>
            simp only [hpi] at h
            injection h with h'
            injection h' with hd hm
            subst hd; subst hm
            dsimp only
            simp only [listModify_length]
            rw [if_neg h3]
            simp only [hpi]
            rw [listModify_comp, listModify_congr _ _ _ _
              (fun x => setParaSpacing_idem _ x)]
    · rw [if_neg h2] at h ⊢
      by_cases h4 : t = "all"
      · rw [if_pos h4] at h ⊢
        injection h with h'
        injection h' with hd hm
        subst hd; subst hm
        dsimp only
        rw [map_idem_of _ (setParaSpacing_idem _)]
      · rw [if_neg h4] at h; cases h

lemma fix_alignment_idem {doc d : ExDoc} {t : String} {p : Params} {m : String}
    (h : fix_alignment doc t p = .ok (d, m)) : fix_alignment d t p = .ok (d, m) := by
  unfold fix_alignment at h ⊢
  by_cases h1 : t = "all_body"
  · rw [if_pos h1] at h ⊢
    injection h with h'
    injection h' with hd hm
    subst hd; subst hm
    dsimp only
    rw [condMap_idem exIsBody (setParaAlignment (alignmentOfString (p.alignment.getD "justify")))
      (fun x => rfl) (setParaAlignment_idem _) doc.paragraphs]
  · rw [if_neg h1] at h ⊢
    by_cases h2 : strStartsWith t "paragraph_" = true
    · rw [if_pos h2] at h ⊢
      cases hti : targetIndex t with
      | none => rw [hti] at h; cases h
      | some idx =>
        simp only [hti] at h ⊢
        by_cases h3 : (doc.paragraphs.length : ℤ) ≤ idx
        · rw [if_pos h3] at h; cases h
        · rw [if_neg h3] at h
          cases hpi : pyIndex doc.paragraphs.length idx with
          | none => rw [hpi] at h; cases h
          | some i =>
            simp only [hpi] at h
            injection h with h'
            injection h' with hd hm
            subst hd; subst hm
            dsimp only
            simp only [listModify_length]
            rw [if_neg h3]
            simp only [hpi]
            rw [listModify_comp, listModify_congr _ _ _ _
              (fun x => setParaAlignment_idem _ x)]
    · rw [if_neg h2] at h ⊢
      by_cases h4 : t = "all"
      · rw [if_pos h4] at h ⊢
        injection h with h'
        injection h' with hd hm
        subst hd; subst hm
        dsimp only
        rw [map_idem_of _ (setParaAlignment_idem _)]
      · rw [if_neg h4] at h; cases h

lemma fix_indent_idem {doc d : ExDoc} {t : String} {p : Params} {m : String}
    (h : fix_indent doc t p = .ok (d, m)) : fix_indent d t p = .ok (d, m) := by
  unfold fix_indent at h ⊢
  by_cases h1 : t = "all_body"
  · rw [if_pos h1] at h ⊢
    injection h with h'
    injection h' with hd hm
    subst hd; subst hm
    dsimp only
    rw [condMap_idem (fun q => exIsBody q && stripTruthy q.text)
      (setParaIndent (p.first_line.getD (5/4)))
      (fun x => rfl) (setParaIndent_idem _) doc.paragraphs]
  · rw [if_neg h1] at h ⊢
    by_cases h2 : strStartsWith t "paragraph_" = true
    · rw [if_pos h2] at h ⊢
      cases hti : targetIndex t with
      | none => rw [hti] at h; cases h
      | some idx =>
        simp only [hti] at h ⊢
        by_cases h3 : (doc.paragraphs.length : ℤ) ≤ idx
        · rw [if_pos h3] at h; cases h
        · rw [if_neg h3] at h
          cases hpi : pyIndex doc.paragraphs.length idx with
          | none => rw [hpi] at h; cases h
          | some i =>
            simp only [hpi] at h
            injection h with h'
            injection h' with hd hm
            subst hd; subst hm
            dsimp only
            simp only [listModify_length]
            rw [if_neg h3]
            simp only [hpi]
            rw [listModify_comp, listModify_congr _ _ _ _
              (fun x => setParaIndent_idem _ x)]
    · rw [if_neg h2] at h ⊢
      by_cases h4 : t = "all"
      · rw [if_pos h4] at h ⊢
        injection h with h'
        injection h' with hd hm
        subst hd; subst hm
        dsimp only
        rw [condMap_idem (fun q => stripTruthy q.text)
          (setParaIndent (p.first_line.getD (5/4)))
          (fun x => rfl) (setParaIndent_idem _) doc.paragraphs]
      · rw [if_neg h4] at h; cases h

lemma execute_single_action_idem {doc d : ExDoc} {a : Action} {m : String}
    (h : execute_single_action doc a = .ok (d, m)) :
    execute_single_action d a = .ok (d, m) := by
  unfold execute_single_action at h ⊢
  by_cases h1 : a.action = "fix_margin"
  · rw [if_pos h1] at h ⊢; exact fix_margin_idem h
  · rw [if_neg h1] at h ⊢
    by_cases h2 : a.action = "fix_font"
    · rw [if_pos h2] at h ⊢; exact fix_font_idem h
    · rw [if_neg h2] at h ⊢
      by_cases h3 : a.action = "fix_spacing"
      · rw [if_pos h3] at h ⊢; exact fix_spacing_idem h
      · rw [if_neg h3] at h ⊢
        by_cases h4 : a.action = "fix_alignment"
        · rw [if_pos h4] at h ⊢; exact fix_alignment_idem h
        · rw [if_neg h4] at h ⊢
          by_cases h5 : a.action = "fix_indent"
          · rw [if_pos h5] at h ⊢; exact fix_indent_idem h
          · rw [if_neg h5] at h; cases h

/-! ## Claim C4: idempotence -/

/-- C4: every Executor operation is idempotent: applying any action (any
of `fix_margin`, `fix_font`, `fix_spacing`, `fix_alignment`,
`fix_indent`, with any target and any params) twice to a document yields
the same state as applying it once — a failed action leaves the document
unchanged and fails identically again — so replaying an action list on a
document it has already converged leaves the document unchanged. -/
theorem C4_operations_idempotent (a : Action) (doc : ExDoc) :
    applyActionDoc (applyActionDoc doc a) a = applyActionDoc doc a := by
  unfold applyActionDoc
  cases hex : execute_single_action doc a with
  | error e => simp only [hex]
  | ok pr =>
    obtain ⟨d, m⟩ := pr
    have h2 := execute_single_action_idem hex
    simp only [hex, h2]

lemma exec_plen {doc d : ExDoc} {a : Action} {m : String}
    (h : execute_single_action doc a = .ok (d, m)) :
    d.paragraphs.length = doc.paragraphs.length := by
  unfold execute_single_action fix_margin fix_font fix_spacing fix_alignment fix_indent at h
  repeat' split at h
  all_goals (try cases h)
  all_goals simp [listModify_length]

lemma target_ne_of_paragraph_target {t : String}
    (h : strStartsWith t "paragraph_" = true) : t ≠ "all_body" ∧ t ≠ "all" :=
  ⟨fun e => absurd (e ▸ h) (by decide), fun e => absurd (e ▸ h) (by decide)⟩

lemma exec_out_of_range {doc : ExDoc} {a : Action} {N : ℤ}
    (hop : a.action = "fix_font" ∨ a.action = "fix_spacing" ∨
      a.action = "fix_alignment" ∨ a.action = "fix_indent")
    (hpre : strStartsWith a.target "paragraph_" = true)
    (hti : targetIndex a.target = some N)
    (hge : (doc.paragraphs.length : ℤ) ≤ N) :
    execute_single_action doc a = .error s!"Parágrafo {N} não existe no documento" := by
  obtain ⟨hne1, hne2⟩ := target_ne_of_paragraph_target hpre
  unfold execute_single_action
  rcases hop with hop | hop | hop | hop <;>
    simp only [hop] <;>
    [(unfold fix_font); (unfold fix_spacing); (unfold fix_alignment); (unfold fix_indent)] <;>
    rw [if_neg hne1, if_pos hpre] <;>
    simp only [hti] <;>
    rw [if_pos hge] <;>
    simp

lemma sortByPriority_length (plan : List Action) :
    (sortByPriority plan).length = plan.length := by
  have hins : ∀ (a : Action) (l : List Action), (insertByKey a l).length = l.length + 1 := by
    intro a l
    induction l with
    | nil => rfl
    | cons b bs ih =>
      unfold insertByKey
      split
      · rfl
      · simp [ih]
  induction plan with
  | nil => rfl
  | cons a rest ih => simp [sortByPriority, hins, ih]

lemma runPlan_length (plan : List Action) :
    ∀ (doc : ExDoc) (k : ℕ), ((runPlan doc plan k).2).length = plan.length := by
  induction plan with
  | nil => intro doc k; rfl
  | cons a rest ih =>
    intro doc k
    unfold runPlan
    cases hex : execute_single_action doc a with
    | ok pr => simp [ih]
    | error e => simp [ih]

lemma runPlan_nth (plan : List Action) :
    ∀ (doc : ExDoc) (k i : ℕ) (a : Action), plan[i]? = some a →
      ∃ r, ((runPlan doc plan k).2)[i]? = some r ∧ r.action = a ∧
        r.action_index = k + i ∧ (r.status = "success" ∨ r.status = "error") := by
  induction plan with
  | nil => intro doc k i a ha; simp at ha
  | cons b rest ih =>
    intro doc k i a ha
    cases i with
    | zero =>
      simp only [List.getElem?_cons_zero, Option.some.injEq] at ha
      cases hex : execute_single_action doc b with
      | ok pr =>
        obtain ⟨d, msg⟩ := pr
        exact ⟨{ action_index := k, action := b, status := "success",
                 message := "✓ " ++ b.description }, by simp [runPlan, hex], ha,
               by simp, Or.inl rfl⟩
      | error e =>
        exact ⟨{ action_index := k, action := b, status := "error",
                 message := "✗ Erro: " ++ e }, by simp [runPlan, hex], ha,
               by simp, Or.inr rfl⟩
    | succ j =>
      simp only [List.getElem?_cons_succ] at ha
      cases hex : execute_single_action doc b with
      | ok pr =>
        obtain ⟨d, msg⟩ := pr
        obtain ⟨r, hr, h1, h2, h3⟩ := ih d (k + 1) j a ha
        refine ⟨r, ?_, h1, by rw [h2]; omega, h3⟩
        simp only [runPlan, hex]
        simpa using hr
      | error e =>
        obtain ⟨r, hr, h1, h2, h3⟩ := ih doc (k + 1) j a ha
        refine ⟨r, ?_, h1, by rw [h2]; omega, h3⟩
        simp only [runPlan, hex]
        simpa using hr

lemma runPlan_error (plan : List Action) :
    ∀ (doc : ExDoc) (k i : ℕ) (a : Action) (N : ℤ), plan[i]? = some a →
      (a.action = "fix_font" ∨ a.action = "fix_spacing" ∨
        a.action = "fix_alignment" ∨ a.action = "fix_indent") →
      strStartsWith a.target "paragraph_" = true →
      targetIndex a.target = some N →
      (doc.paragraphs.length : ℤ) ≤ N →
      ∃ r, ((runPlan doc plan k).2)[i]? = some r ∧ r.status = "error" ∧
        r.message = "✗ Erro: " ++ s!"Parágrafo {N} não existe no documento" ∧
        r.action = a := by
  induction plan with
  | nil => intro doc k i a N ha _ _ _ _; simp at ha
  | cons b rest ih =>
    intro doc k i a N ha hop hpre hti hge
    cases i with
    | zero =>
      simp only [List.getElem?_cons_zero, Option.some.injEq] at ha
      cases ha
      have herr := exec_out_of_range hop hpre hti hge
      exact ⟨{ action_index := k, action := b, status := "error",
               message := "✗ Erro: " ++ s!"Parágrafo {N} não existe no documento" },
             by simp [runPlan, herr], rfl, rfl, rfl⟩
    | succ j =>
      simp only [List.getElem?_cons_succ] at ha
      cases hex : execute_single_action doc b with
      | ok pr =>
        obtain ⟨d, msg⟩ := pr
        have hlen : d.paragraphs.length = doc.paragraphs.length := exec_plen hex
        obtain ⟨r, hr, h1, h2, h3⟩ :=
          ih d (k + 1) j a N ha hop hpre hti (by rw [hlen]; exact hge)
        refine ⟨r, ?_, h1, h2, h3⟩
        simp only [runPlan, hex]
        simpa using hr
      | error e =>
        obtain ⟨r, hr, h1, h2, h3⟩ := ih doc (k + 1) j a N ha hop hpre hti hge
        refine ⟨r, ?_, h1, h2, h3⟩
        simp only [runPlan, hex]
        simpa using hr

/-! ## Claim C5: per-action error isolation -/

/-- C5: `execute_action_plan` applies each action independently: it
returns one result per action of the plan (never aborting), each result
carries its action in sorted order, an action whose `paragraph_<N>`
target is out of range (`N ≥` paragraph count) yields a result with
`status = "error"` carrying the exception message
`Parágrafo N não existe no documento`, and `get_summary` counts exactly
the error results in `failed_actions`. -/
theorem C5_plan_error_isolation (doc : ExDoc) (plan : List Action) :
    ((execute_action_plan doc plan).2).length = plan.length ∧
    (∀ (i : ℕ) (a : Action), (sortByPriority plan)[i]? = some a →
      ∃ r, ((execute_action_plan doc plan).2)[i]? = some r ∧ r.action = a ∧
        r.action_index = i ∧ (r.status = "success" ∨ r.status = "error")) ∧
    (∀ (i : ℕ) (a : Action) (N : ℤ), (sortByPriority plan)[i]? = some a →
      (a.action = "fix_font" ∨ a.action = "fix_spacing" ∨
        a.action = "fix_alignment" ∨ a.action = "fix_indent") →
      strStartsWith a.target "paragraph_" = true →
      targetIndex a.target = some N →
      (doc.paragraphs.length : ℤ) ≤ N →
      ∃ r, ((execute_action_plan doc plan).2)[i]? = some r ∧ r.status = "error" ∧
        r.message = "✗ Erro: " ++ s!"Parágrafo {N} não existe no documento" ∧
        r.action = a) ∧
    (get_summary (execute_action_plan doc plan).2).failed_actions =
      ((execute_action_plan doc plan).2.filter (fun r => r.status = "error")).length := by
  refine ⟨?_, ?_, ?_, rfl⟩
  · rw [execute_action_plan, runPlan_length, sortByPriority_length]
  · intro i a ha
    obtain ⟨r, h1, h2, h3, h4⟩ := runPlan_nth (sortByPriority plan) doc 0 i a ha
    exact ⟨r, h1, h2, by rw [h3]; omega, h4⟩
  · intro i a N ha hop hpre hti hge
    exact runPlan_error (sortByPriority plan) doc 0 i a N ha hop hpre hti hge

/-- C5 witness: a three-action plan on the three-paragraph document, with
the middle action targeting `paragraph_500`. -/
theorem C5_plan_error_isolation_witness :
    (sortByPriority badPlan)[1]? = some
      { action := "fix_font", target := "paragraph_500",
        params := { name := some "Arial", size := some 12 },
        description := "Fonte em parágrafo inexistente", priority := some 2 } ∧
    strStartsWith "paragraph_500" "paragraph_" = true ∧
    targetIndex "paragraph_500" = some n500 ∧
    ((smallDoc.paragraphs.length : ℤ) ≤ n500) ∧
    ((execute_action_plan smallDoc badPlan).2).length = badPlan.length ∧
    (∃ r, ((execute_action_plan smallDoc badPlan).2)[1]? = some r ∧
      r.status = "error" ∧
      r.message = "✗ Erro: " ++ s!"Parágrafo {n500} não existe no documento" ∧
      r.action = { action := "fix_font", target := "paragraph_500",
                   params := { name := some "Arial", size := some 12 },
                   description := "Fonte em parágrafo inexistente",
                   priority := some 2 }) :=
  ⟨by decide, by decide, by decide, by decide,
   (C5_plan_error_isolation smallDoc badPlan).1,
   (C5_plan_error_isolation smallDoc badPlan).2.2.1 1
     { action := "fix_font", target := "paragraph_500",
       params := { name := some "Arial", size := some 12 },
       description := "Fonte em parágrafo inexistente", priority := some 2 }
     n500 (by decide) (Or.inl rfl) (by decide) (by decide) (by decide)⟩

/-! ## Claim C8: all_body frame conditions -/

/-- C8: executing any fix operation with target `all_body` never modifies
a paragraph whose style is a heading (`heading`/`título` prefix,
case-insensitive), never alters any run's text or the paragraph text or
style name, and changes only the formatting fields of the operation's
parameter record on the selected body paragraphs; `fix_indent`
additionally leaves blank-text paragraphs untouched, and `fix_margin`
with target `all_body` is a target error that leaves the document
unchanged. -/
theorem C8_all_body_frame (op : String) (params : Params) (doc : ExDoc)
    (desc : String) (prio : Option ℤ) :
    (applyActionDoc doc (allBodyAction op params desc prio)).paragraphs.length
      = doc.paragraphs.length ∧
    (∀ (i : ℕ) (q : ExPara), doc.paragraphs[i]? = some q →
      ∃ q', (applyActionDoc doc (allBodyAction op params desc prio)).paragraphs[i]?
          = some q' ∧
        (exIsBody q = false → q' = q) ∧
        q'.styleName = q.styleName ∧ q'.text = q.text ∧
        q'.runs.map ExRun.text = q.runs.map ExRun.text ∧
        (op = "fix_font" → q'.alignment = q.alignment ∧ q'.lineSpacing = q.lineSpacing ∧
          q'.firstLineIndent = q.firstLineIndent) ∧
        (op = "fix_spacing" → q'.runs = q.runs ∧ q'.alignment = q.alignment ∧
          q'.firstLineIndent = q.firstLineIndent) ∧
        (op = "fix_alignment" → q'.runs = q.runs ∧ q'.lineSpacing = q.lineSpacing ∧
          q'.firstLineIndent = q.firstLineIndent) ∧
        (op = "fix_indent" → q'.runs = q.runs ∧ q'.alignment = q.alignment ∧
          q'.lineSpacing = q.lineSpacing ∧ (stripTruthy q.text = false → q' = q)) ∧
        (op = "fix_margin" → q' = q)) := by
  by_cases h1 : op = "fix_margin"
  · subst h1
    have hd : applyActionDoc doc (allBodyAction "fix_margin" params desc prio) = doc := rfl
    rw [hd]
    refine ⟨rfl, fun i q hq => ⟨q, hq, fun _ => rfl, rfl, rfl, rfl,
      fun _ => ⟨rfl, rfl, rfl⟩, fun _ => ⟨rfl, rfl, rfl⟩, fun _ => ⟨rfl, rfl, rfl⟩,
      fun _ => ⟨rfl, rfl, rfl, fun _ => rfl⟩, fun _ => rfl⟩⟩
  · by_cases h2 : op = "fix_font"
    · subst h2
      have hd : applyActionDoc doc (allBodyAction "fix_font" params desc prio) =
          { doc with paragraphs := doc.paragraphs.map (fun q =>
              if exIsBody q then
                setParaFont (params.name.getD "Arial") (params.size.getD 12) q
              else q) } := rfl
      rw [hd]
      refine ⟨by simp, fun i q hq => ?_⟩
      refine ⟨if exIsBody q then
          setParaFont (params.name.getD "Arial") (params.size.getD 12) q else q,
        by simpa [List.getElem?_map] using congrArg (Option.map _) hq, ?_, ?_, ?_, ?_,
        ?_, ?_, ?_, ?_, ?_⟩
      · intro hb; rw [hb]; simp
      · split <;> rfl
      · split <;> rfl
      · split
        · simp [setParaFont, setRunFont, List.map_map]
        · rfl
      · intro _
        split <;> exact ⟨rfl, rfl, rfl⟩
      · intro hcon; exact absurd hcon (by decide)
      · intro hcon; exact absurd hcon (by decide)
      · intro hcon; exact absurd hcon (by decide)
      · intro hcon; exact absurd hcon (by decide)
    · by_cases h3 : op = "fix_spacing"
      · subst h3
        have hd : applyActionDoc doc (allBodyAction "fix_spacing" params desc prio) =
            { doc with paragraphs := doc.paragraphs.map (fun q =>
                if exIsBody q then setParaSpacing (params.line_spacing.getD (3/2)) q
                else q) } := rfl
        rw [hd]
        refine ⟨by simp, fun i q hq => ?_⟩
        refine ⟨if exIsBody q then setParaSpacing (params.line_spacing.getD (3/2)) q else q,
          by simpa [List.getElem?_map] using congrArg (Option.map _) hq, ?_, ?_, ?_, ?_,
          ?_, ?_, ?_, ?_, ?_⟩
        · intro hb; rw [hb]; simp
        · split <;> rfl
        · split <;> rfl
        · split <;> rfl
        · intro hcon; exact absurd hcon (by decide)
        · intro _
          split <;> exact ⟨rfl, rfl, rfl⟩
        · intro hcon; exact absurd hcon (by decide)
        · intro hcon; exact absurd hcon (by decide)
        · intro hcon; exact absurd hcon (by decide)
      · by_cases h4 : op = "fix_alignment"
        · subst h4
          have hd : applyActionDoc doc (allBodyAction "fix_alignment" params desc prio) =
              { doc with paragraphs := doc.paragraphs.map (fun q =>
                  if exIsBody q then
                    setParaAlignment (alignmentOfString (params.alignment.getD "justify")) q
                  else q) } := rfl
          rw [hd]
          refine ⟨by simp, fun i q hq => ?_⟩
          refine ⟨if exIsBody q then
              setParaAlignment (alignmentOfString (params.alignment.getD "justify")) q
            else q,
            by simpa [List.getElem?_map] using congrArg (Option.map _) hq, ?_, ?_, ?_, ?_,
            ?_, ?_, ?_, ?_, ?_⟩
          · intro hb; rw [hb]; simp
          · split <;> rfl
          · split <;> rfl
          · split <;> rfl
          · intro hcon; exact absurd hcon (by decide)
          · intro hcon; exact absurd hcon (by decide)
          · intro _
            split <;> exact ⟨rfl, rfl, rfl⟩
          · intro hcon; exact absurd hcon (by decide)
          · intro hcon; exact absurd hcon (by decide)
        · by_cases h5 : op = "fix_indent"
          · subst h5
            have hd : applyActionDoc doc (allBodyAction "fix_indent" params desc prio) =
                { doc with paragraphs := doc.paragraphs.map (fun q =>
                    if exIsBody q && stripTruthy q.text then
                      setParaIndent (params.first_line.getD (5/4)) q
                    else q) } := rfl
            rw [hd]
            refine ⟨by simp, fun i q hq => ?_⟩
            refine ⟨if exIsBody q && stripTruthy q.text then
                setParaIndent (params.first_line.getD (5/4)) q else q,
              by simpa [List.getElem?_map] using congrArg (Option.map _) hq, ?_, ?_, ?_, ?_,
              ?_, ?_, ?_, ?_, ?_⟩
            · intro hb; rw [hb]; simp
            · split <;> rfl
            · split <;> rfl
            · split <;> rfl
            · intro hcon; exact absurd hcon (by decide)
            · intro hcon; exact absurd hcon (by decide)
            · intro hcon; exact absurd hcon (by decide)
            · intro _
              refine ⟨?_, ?_, ?_, ?_⟩
              · split <;> rfl
              · split <;> rfl
              · split <;> rfl
              · intro ht
                rw [ht, Bool.and_false]
                simp
            · intro hcon; exact absurd hcon (by decide)
          · have hd : applyActionDoc doc (allBodyAction op params desc prio) = doc := by
              unfold applyActionDoc execute_single_action allBodyAction
              dsimp only
              rw [if_neg h1, if_neg h2, if_neg h3, if_neg h4, if_neg h5]
            rw [hd]
            refine ⟨rfl, fun i q hq => ⟨q, hq, fun _ => rfl, rfl, rfl, rfl,
              fun h => absurd h h2, fun h => absurd h h3, fun h => absurd h h4,
              fun h => absurd h h5, fun h => absurd h h1⟩⟩

/-- C8 witness: `fix_font` over `all_body` on the small document leaves
the heading paragraph (index 0) untouched. -/
theorem C8_all_body_frame_witness :
    smallDoc.paragraphs[0]? = some exHeadingPara ∧
    exIsBody exHeadingPara = false ∧
    (∃ q', (applyActionDoc smallDoc (allBodyAction "fix_font"
        { name := some "Arial", size := some 12 } "Padronizar fonte" (some 1))).paragraphs[0]?
        = some q' ∧ (exIsBody exHeadingPara = false → q' = exHeadingPara) ∧
      q'.styleName = exHeadingPara.styleName) :=
  ⟨rfl, by decide, by
    obtain ⟨q', h1, h2, h3, _⟩ :=
      (C8_all_body_frame "fix_font" { name := some "Arial", size := some 12 }
        smallDoc "Padronizar fonte" (some 1)).2 0 exHeadingPara rfl
    exact ⟨q', h1, h2, h3⟩⟩

/-! ## Claim C9: negative target indices resolve from the end -/

/-- C9: the only bounds check of the executor's target resolution is
`index >= count`, so a `paragraph_<N>`/`section_<N>` target with negative
`N` and `|N| ≤ count` is not reported as a target-resolution error:
Python negative indexing resolves the target to the element at position
`count − |N|`, the fix is applied there, and the call returns
successfully. -/
theorem C9_negative_index_targets (doc : ExDoc) (t : String) (N : ℤ) (params : Params)
    (hneg : N < 0) :
    (strStartsWith t "paragraph_" = true → targetIndex t = some N →
      -N ≤ (doc.paragraphs.length : ℤ) →
      fix_font doc t params =
        .ok ({ doc with
               paragraphs := listModify doc.paragraphs
                 (doc.paragraphs.length - (-N).toNat)
                 (setParaFont (params.name.getD "Arial") (params.size.getD 12)) },
             s!"Fonte ajustada no parágrafo {N}")) ∧
    (strStartsWith t "section_" = true → targetIndex t = some N →
      -N ≤ (doc.sections.length : ℤ) →
      fix_margin doc t params =
        .ok ({ doc with
               sections := listModify doc.sections
                 (doc.sections.length - (-N).toNat) (applyMarginParams params) },
             s!"Margens ajustadas na seção {N}")) := by
  constructor
  · intro hpre hti hin
    obtain ⟨hne1, _⟩ := target_ne_of_paragraph_target hpre
    unfold fix_font
    rw [if_neg hne1, if_pos hpre]
    simp only [hti]
    have hb : ¬ ((doc.paragraphs.length : ℤ) ≤ N) := by omega
    rw [if_neg hb]
    have hpy : pyIndex doc.paragraphs.length N =
        some (doc.paragraphs.length - (-N).toNat) := by
      unfold pyIndex
      rw [if_neg (by omega), if_pos hin]
    simp only [hpy]
  · intro hpre hti hin
    unfold fix_margin
    rw [if_pos hpre]
    simp only [hti]
    have hb : ¬ ((doc.sections.length : ℤ) ≤ N) := by omega
    rw [if_neg hb]
    have hpy : pyIndex doc.sections.length N =
        some (doc.sections.length - (-N).toNat) := by
      unfold pyIndex
      rw [if_neg (by omega), if_pos hin]
    simp only [hpy]

/-- C9 witness: `paragraph_-1` in the three-paragraph document resolves
to the last paragraph and succeeds. -/
theorem C9_negative_index_targets_witness :
    (negOne < 0) ∧ strStartsWith "paragraph_-1" "paragraph_" = true ∧
    targetIndex "paragraph_-1" = some negOne ∧
    (-negOne ≤ (smallDoc.paragraphs.length : ℤ)) ∧
    fix_font smallDoc "paragraph_-1" { name := some "Arial", size := some 12 } =
      .ok ({ smallDoc with
             paragraphs := listModify smallDoc.paragraphs
               (smallDoc.paragraphs.length - (-negOne).toNat)
               (setParaFont (({ name := some "Arial", size := some 12 : Params }).name.getD "Arial")
                 (({ name := some "Arial", size := some 12 : Params }).size.getD 12)) },
           s!"Fonte ajustada no parágrafo {negOne}") :=
  ⟨by decide, by decide, by decide, by decide,
    (C9_negative_index_targets smallDoc "paragraph_-1" negOne
      { name := some "Arial", size := some 12 } (by decide)).1
      (by decide) (by decide) (by decide)⟩

end Normaex
